import Mathlib

/-!
# Exynos camera wrapper (`camera/CameraWrapper.cpp`)

A shallow embedding of the camera HAL wrapper: the three parameter fixups
(`camera_fixup_getparams`, `camera_fixup_setparams`, `camera_fixup_putparams`),
the forwarding operations and `camera_device_open`.

C strings are Lean strings, a `const char *` that may be null is an
`Option String`, an `int` is an `Int`.  A step whose behaviour C leaves
undefined (reading through a null pointer) makes the embedded function
return `none`.

The wrapper is written against `android::CameraParameters` and
`android::String8` (`<camera/CameraParameters.h>`, `<utils/String8.h>`), which
the file includes and calls; their embedding below follows the Android
framework implementation these headers declare.
-/

namespace android

/-! ## `String8` and `KeyedVector<String8, String8>` -/

/-- The order `String8::operator<` puts on strings, `strcmp(a, b) < 0`:
the first position at which the two differ decides, a proper prefix is smaller. -/
def strLt : List Char → List Char → Bool
  | [], [] => false
  | [], _ :: _ => true
  | _ :: _, [] => false
  | a :: as, b :: bs => if a < b then true else if b < a then false else strLt as bs

/-- The constructor `String8(const char* o)`.  It takes `strlen(o)`, so a null
pointer is an undefined step (`none`); any other pointer yields its string. -/
def String8 (o : Option String) : Option String := o

/-- Method `String8::bytes` of the Android framework
(`SharedBuffer::sizeFromData(mString) - 1`): the number of bytes of the text,
the terminating NUL not counted. -/
def String8.bytes (s : String) : Nat := s.utf8ByteSize

namespace KeyedVector

/-- The value stored for `key`, if the vector has an item with that key
(`indexOfKey` followed by `valueAt`).  On a vector in key order, which has
every key once, the binary search of `indexOfKey` finds the item this scan
finds. -/
def find (key : String) : List (String × String) → Option String
  | [] => none
  | (k, v) :: rest => if k = key then some v else find key rest

/-- Method `DefaultKeyedVector::valueFor`: the stored value, or the default value (the
empty `String8`) when there is no item with that key. -/
def valueFor (m : List (String × String)) (key : String) : String :=
  (find key m).getD ""

/-- Method `KeyedVector::add`, that is `SortedVector::add` of the pair: the item
is inserted at its place in key order, or replaces the item whose key is
equal. -/
def add (key value : String) : List (String × String) → List (String × String)
  | [] => [(key, value)]
  | (k, v) :: rest =>
    if strLt key.data k.data then (key, value) :: (k, v) :: rest
    else if key = k then (key, value) :: rest
    else (k, v) :: add key value rest

/-- Method `KeyedVector::removeItem`: the item with that key is taken out, if there
is one. -/
def removeItem (key : String) : List (String × String) → List (String × String)
  | [] => []
  | (k, v) :: rest => if k = key then rest else (k, v) :: removeItem key rest

/-- Method `KeyedVector::replaceValueFor`: `remove` of the pair, then `add` of it. -/
def replaceValueFor (key value : String) (m : List (String × String)) :
    List (String × String) :=
  add key value (removeItem key m)

end KeyedVector

/-! ## `CameraParameters` -/

/-- The parameter object: its only member is `mMap`, a
`DefaultKeyedVector<String8, String8>` kept in key order. -/
structure CameraParameters where
  mMap : List (String × String)
deriving DecidableEq, Repr

namespace CameraParameters

/-- Constant `CameraParameters::KEY_PREVIEW_SIZE`, the key of the preview size. -/
def KEY_PREVIEW_SIZE : String := "preview-size"

/-- Constant `CameraParameters::KEY_SUPPORTED_PREVIEW_SIZES`, the key of the list of
supported preview sizes (`preview-size-values` in the framework). -/
def KEY_SUPPORTED_PREVIEW_SIZES : String := "preview-size-values"

/-- Constant `CameraParameters::KEY_VIDEO_SIZE`, the key of the video size. -/
def KEY_VIDEO_SIZE : String := "video-size"

/-- Constant `CameraParameters::KEY_SUPPORTED_VIDEO_SIZES`, the key of the list of
supported video sizes (`video-size-values` in the framework). -/
def KEY_SUPPORTED_VIDEO_SIZES : String := "video-size-values"

/-- Constant `CameraParameters::KEY_PREFERRED_PREVIEW_SIZE_FOR_VIDEO`, the key of the
preferred preview size for video. -/
def KEY_PREFERRED_PREVIEW_SIZE_FOR_VIDEO : String := "preferred-preview-size-for-video"

/-- The default constructor: an empty map. -/
def empty : CameraParameters := ⟨[]⟩

/-- Function `strchr(a, c)` together with the two pieces the caller cuts at the result:
the characters before the first `c` and the characters after it; `none` when
`c` does not occur (`strchr` returns 0). -/
def strchr (c : Char) : List Char → Option (List Char × List Char)
  | [] => none
  | x :: xs =>
    if x = c then some ([], xs)
    else match strchr c xs with
      | none => none
      | some (before, after) => some (x :: before, after)

/-- The `for (;;)` loop of `CameraParameters::unflatten`, one unfolding per
round, `a` being the text from the read position on.  A round looks for `=`
(`b = strchr(a, '=')`; none: stop), takes the text before it as the key, looks
for `;` behind it (none: the rest is the last value, `mMap.add(k, v)` and
stop), adds the pair and goes on behind the `;`.  Every round that goes on has
consumed at least two characters, so `a.length` rounds always suffice
(`unflattenLoop_fuel`). -/
def unflattenLoop : Nat → List Char → List (String × String) → List (String × String)
  | 0, _, m => m
  | fuel + 1, a, m =>
    match strchr '=' a with
    | none => m
    | some (k, a1) =>
      match strchr ';' a1 with
      | none => KeyedVector.add (String.mk k) (String.mk a1) m
      | some (v, a2) => unflattenLoop fuel a2 (KeyedVector.add (String.mk k) (String.mk v) m)

/-- Modelled from the spec: `parse` of the configuration codec, the
`CameraParameters::unflatten` every fixup starts with, whose body is not in
`CameraWrapper.cpp`.  The map is cleared and filled with the `key=value`
pairs of the text, pairs being separated by `;`. -/
def unflatten (params : String) : CameraParameters :=
  ⟨unflattenLoop params.data.length params.data []⟩

/-- The loop of `flatten` over the items from some index on:
`flattened += k; flattened += "="; flattened += v;` and, for every item but
the last, `flattened += ";"`. -/
def flattenItems : List (String × String) → String
  | [] => ""
  | [(k, v)] => k ++ "=" ++ v
  | (k, v) :: rest => k ++ "=" ++ v ++ ";" ++ flattenItems rest

/-- Modelled from the spec: `serialize` of the configuration codec, the
`CameraParameters::flatten` every fixup ends with, whose body is not in
`CameraWrapper.cpp`.  The items in map order as `key=value`, joined by `;`. -/
def flatten (p : CameraParameters) : String :=
  flattenItems p.mMap

/-- Method `CameraParameters::get` of the Android framework:
`String8 v = mMap.valueFor(String8(key)); if (v.length() == 0) return 0;
return v.string();`.  The result is a null pointer when the value has length
0, which is the case when the key is absent (`valueFor` then gives the default,
empty, string) and also when the key is stored with an empty value. -/
def get (p : CameraParameters) (key : String) : Option String :=
  let v := KeyedVector.valueFor p.mMap key
  if v.length = 0 then none else some v

/-- Method `CameraParameters::set(const char *key, const char *value)` of the
Android framework: `if (strchr(key, '=') || strchr(key, ';')) return;
if (strchr(value, '=') || strchr(key, ';')) return;
mMap.replaceValueFor(String8(key), String8(value));`.  Both arguments go to
`strchr`, so a null `value` is an undefined step (`none`).  A key holding `=`
or `;` and a value holding `=` are refused silently (the second test looks
for `;` in the key once more). -/
def set (p : CameraParameters) (key : String) (value : Option String) :
    Option CameraParameters :=
  match value with
  | none => none
  | some value =>
    if '=' ∈ key.data ∨ ';' ∈ key.data then some p
    else if '=' ∈ value.data ∨ ';' ∈ key.data then some p
    else some ⟨KeyedVector.replaceValueFor key value p.mMap⟩

/-- Method `CameraParameters::remove`: `mMap.removeItem(key)`. -/
def remove (p : CameraParameters) (key : String) : CameraParameters :=
  ⟨KeyedVector.removeItem key p.mMap⟩

/-- Method `CameraParameters::setPreviewSize`: `sprintf(str, "%dx%d", width, height)`
and `set(KEY_PREVIEW_SIZE, str)`. -/
def setPreviewSize (p : CameraParameters) (width height : Int) : Option CameraParameters :=
  p.set KEY_PREVIEW_SIZE (some (toString width ++ "x" ++ toString height))

/-- Method `CameraParameters::setVideoSize`: `sprintf(str, "%dx%d", width, height)`
and `set(KEY_VIDEO_SIZE, str)`. -/
def setVideoSize (p : CameraParameters) (width height : Int) : Option CameraParameters :=
  p.set KEY_VIDEO_SIZE (some (toString width ++ "x" ++ toString height))

end CameraParameters

end android

namespace CameraWrapper

open android

/-! ## The parameter fixups -/

/-- Function `camera_fixup_getparams` (lines 537-577; its `device` argument is
not used): the text the vendor returned is parsed, `KEY_SUPPORTED_VIDEO_SIZES`
is removed, and when `get("cam_mode")` is not null the preview size list is
set and the preview and video size are set from the video size.  The result is the text that `strcpy` copies into the
buffer stored in `*settings`; a null pointer reached on the way is an
undefined step (`none`). -/
def camera_fixup_getparams (settings : String) : Option String := do
  let params := CameraParameters.unflatten settings
  let params := params.remove CameraParameters.KEY_SUPPORTED_VIDEO_SIZES
  let params ←
    if (params.get "cam_mode").isSome then do
      let params ← params.set CameraParameters.KEY_SUPPORTED_PREVIEW_SIZES
        (some "1920x1080,1280x720,720x480")
      let videoSize := params.get CameraParameters.KEY_VIDEO_SIZE
      if (← String8 videoSize) = "1920x1080" then do
        let params ← params.setPreviewSize 1920 1080
        params.setVideoSize 1920 1080
      else if (← String8 videoSize) = "1280x720" then do
        let params ← params.setPreviewSize 1280 720
        params.setVideoSize 1280 720
      else do
        let params ← params.setPreviewSize 720 480
        params.setVideoSize 720 480
    else pure params
  pure params.flatten

/-- Function `camera_fixup_setparams` (lines 579-619; its `device` argument is
not used): when `get("cam_mode")` is not null, the preview size is copied to
the video size and to the preferred preview size for video, the video size
list is set, and the preview and video size are set from the preview size. -/
def camera_fixup_setparams (settings : String) : Option String := do
  let params := CameraParameters.unflatten settings
  let params ←
    if (params.get "cam_mode").isSome then do
      let previewSize := params.get CameraParameters.KEY_PREVIEW_SIZE
      let params ← params.set CameraParameters.KEY_VIDEO_SIZE previewSize
      let params ← params.set CameraParameters.KEY_PREFERRED_PREVIEW_SIZE_FOR_VIDEO previewSize
      let params ← params.set CameraParameters.KEY_SUPPORTED_VIDEO_SIZES
        (some "1920x1080,1280x720,720x480")
      if (← String8 previewSize) = "1920x1080" then do
        let params ← params.setPreviewSize 1920 1080
        params.setVideoSize 1920 1080
      else if (← String8 previewSize) = "1280x720" then do
        let params ← params.setPreviewSize 1280 720
        params.setVideoSize 1280 720
      else do
        let params ← params.setPreviewSize 720 480
        params.setVideoSize 720 480
    else pure params
  pure params.flatten

/-- Function `camera_fixup_putparams` (lines 621-660; its `device` argument is
not used): when `get("cam_mode")` is not null, the video size is copied to the
preview size and to the preferred preview size for video, and the preview and
video size are set from the video size. -/
def camera_fixup_putparams (settings : String) : Option String := do
  let params := CameraParameters.unflatten settings
  let params ←
    if (params.get "cam_mode").isSome then do
      let videoSize := params.get CameraParameters.KEY_VIDEO_SIZE
      let params ← params.set CameraParameters.KEY_PREVIEW_SIZE videoSize
      let params ← params.set CameraParameters.KEY_PREFERRED_PREVIEW_SIZE_FOR_VIDEO videoSize
      if (← String8 videoSize) = "1920x1080" then do
        let params ← params.setPreviewSize 1920 1080
        params.setVideoSize 1920 1080
      else if (← String8 videoSize) = "1280x720" then do
        let params ← params.setPreviewSize 1280 720
        params.setVideoSize 1280 720
      else do
        let params ← params.setPreviewSize 720 480
        params.setVideoSize 720 480
    else pure params
  pure params.flatten

/-! ## The buffer a fixup returns -/

/-- Function `strcpy(dst, src)` of `<string.h>`, as the number of bytes it
writes to `dst`: the bytes of `src` and the terminating NUL behind them.  (A C
string holds no NUL before its end, so `strlen(src)` is its number of
bytes.) -/
def strcpy (src : String) : Nat := src.utf8ByteSize + 1

/-- The buffer a fixup leaves in `*settings`: how many bytes were allocated
for it and how many bytes were written into it. -/
structure SettingsBuffer where
  allocated : Nat
  written : Nat
deriving DecidableEq, Repr

/-- The closing lines of each fixup (572-574, 614-616, 655-657) for the
flattened text `strParams`: `*settings = new char[strParams.bytes()];
strcpy(*settings, strParams.string());`. -/
def copy_to_settings (strParams : String) : SettingsBuffer :=
  ⟨String8.bytes strParams, strcpy strParams⟩

/-! ## The forwarding operations -/

/-- Constant `EINVAL` of `<errno.h>`. -/
def EINVAL : Int := 22

/-- Constant `ENOMEM` of `<errno.h>`. -/
def ENOMEM : Int := 12

/-- The members of `camera_device_ops_t` that the wrapper fills in (lines
479-501) and calls on the vendor device through `VENDOR_CALL`. -/
inductive Op
  | set_preview_window | set_callbacks | enable_msg_type | disable_msg_type
  | msg_type_enabled | start_preview | stop_preview | preview_enabled
  | store_meta_data_in_buffers | start_recording | stop_recording
  | recording_enabled | release_recording_frame | auto_focus | cancel_auto_focus
  | take_picture | cancel_picture | set_parameters | get_parameters
  | put_parameters | send_command | release | dump
deriving DecidableEq, Repr

/-- An argument handed to a vendor operation: an integer, a pointer (its
address), or a parameter text. -/
inductive Arg
  | int (v : Int)
  | ptr (addr : Nat)
  | str (s : String)
deriving DecidableEq, Repr

/-- One call of a vendor operation: which member of the vendor's table was
called and with which arguments (the vendor device itself left out). -/
structure VendorCall where
  op : Op
  args : List Arg
deriving DecidableEq, Repr

/-- The vendor's `camera_device_t`: what each operation of its table returns
for given arguments, and the text its `get_parameters` returns. -/
structure camera_device where
  ops : Op → List Arg → Int
  parameters : Option String

/-- Type `wrapper_camera_device_t` (lines 72-75): the pointer to the vendor device
(the `base` member holds nothing the operations read). -/
structure wrapper_camera_device where
  vendor : Option camera_device

/-- Macro `VENDOR_CALL(device, func, ...)` (lines 77-80):
`device->vendor->ops->func(device->vendor, ...)`.  The result of the vendor
operation and the call made; a null `vendor` is an undefined step. -/
def VENDOR_CALL (device : wrapper_camera_device) (func : Op) (args : List Arg) :
    Option (Int × List VendorCall) :=
  match device.vendor with
  | none => none
  | some vendor => some (vendor.ops func args, [⟨func, args⟩])

/-- The statement `LOGV("%s->%08X->%08X", __FUNCTION__, (uintptr_t)device,
(uintptr_t)(((wrapper_camera_device_t*)device)->vendor))` that opens the
operations.  `LOGV` is a macro of `<cutils/log.h>`; `logv` says whether it
evaluates its operands, as it does under the `#define LOG_NDEBUG 0` of line
24.  When it does, `device->vendor` is read, which is an undefined step for a
null `device`. -/
def LOGV_vendor (logv : Bool) (device : Option wrapper_camera_device) : Option Unit :=
  if logv then
    match device with
    | none => none
    | some _ => some ()
  else some ()

/-- Function `camera_set_preview_window` (lines 100-109). -/
def camera_set_preview_window (logv : Bool) (device : Option wrapper_camera_device)
    (window : Nat) : Option (Int × List VendorCall) := do
  LOGV_vendor logv device
  match device with
  | none => pure (-EINVAL, [])
  | some dev => VENDOR_CALL dev Op.set_preview_window [Arg.ptr window]

/-- Function `camera_set_callbacks` (lines 111-125). -/
def camera_set_callbacks (logv : Bool) (device : Option wrapper_camera_device)
    (notify_cb data_cb data_cb_timestamp get_memory user : Nat) :
    Option (Unit × List VendorCall) := do
  LOGV_vendor logv device
  match device with
  | none => pure ((), [])
  | some dev =>
    let r ← VENDOR_CALL dev Op.set_callbacks
      [Arg.ptr notify_cb, Arg.ptr data_cb, Arg.ptr data_cb_timestamp, Arg.ptr get_memory,
        Arg.ptr user]
    pure ((), r.2)

/-- Function `camera_enable_msg_type` (lines 127-136). -/
def camera_enable_msg_type (logv : Bool) (device : Option wrapper_camera_device)
    (msg_type : Int) : Option (Unit × List VendorCall) := do
  LOGV_vendor logv device
  match device with
  | none => pure ((), [])
  | some dev =>
    let r ← VENDOR_CALL dev Op.enable_msg_type [Arg.int msg_type]
    pure ((), r.2)

/-- Function `camera_disable_msg_type` (lines 138-147). -/
def camera_disable_msg_type (logv : Bool) (device : Option wrapper_camera_device)
    (msg_type : Int) : Option (Unit × List VendorCall) := do
  LOGV_vendor logv device
  match device with
  | none => pure ((), [])
  | some dev =>
    let r ← VENDOR_CALL dev Op.disable_msg_type [Arg.int msg_type]
    pure ((), r.2)

/-- Function `camera_msg_type_enabled` (lines 149-158): a null device gives 0. -/
def camera_msg_type_enabled (logv : Bool) (device : Option wrapper_camera_device)
    (msg_type : Int) : Option (Int × List VendorCall) := do
  LOGV_vendor logv device
  match device with
  | none => pure (0, [])
  | some dev => VENDOR_CALL dev Op.msg_type_enabled [Arg.int msg_type]

/-- Function `camera_start_preview` (lines 160-169). -/
def camera_start_preview (logv : Bool) (device : Option wrapper_camera_device) :
    Option (Int × List VendorCall) := do
  LOGV_vendor logv device
  match device with
  | none => pure (-EINVAL, [])
  | some dev => VENDOR_CALL dev Op.start_preview []

/-- Function `camera_stop_preview` (lines 171-180). -/
def camera_stop_preview (logv : Bool) (device : Option wrapper_camera_device) :
    Option (Unit × List VendorCall) := do
  LOGV_vendor logv device
  match device with
  | none => pure ((), [])
  | some dev =>
    let r ← VENDOR_CALL dev Op.stop_preview []
    pure ((), r.2)

/-- Function `camera_preview_enabled` (lines 182-191). -/
def camera_preview_enabled (logv : Bool) (device : Option wrapper_camera_device) :
    Option (Int × List VendorCall) := do
  LOGV_vendor logv device
  match device with
  | none => pure (-EINVAL, [])
  | some dev => VENDOR_CALL dev Op.preview_enabled []

/-- Function `camera_store_meta_data_in_buffers` (lines 193-202). -/
def camera_store_meta_data_in_buffers (logv : Bool) (device : Option wrapper_camera_device)
    (enable : Int) : Option (Int × List VendorCall) := do
  LOGV_vendor logv device
  match device with
  | none => pure (-EINVAL, [])
  | some dev => VENDOR_CALL dev Op.store_meta_data_in_buffers [Arg.int enable]

/-- Function `camera_start_recording` (lines 204-213): a null device gives `EINVAL`,
written without the minus sign. -/
def camera_start_recording (logv : Bool) (device : Option wrapper_camera_device) :
    Option (Int × List VendorCall) := do
  LOGV_vendor logv device
  match device with
  | none => pure (EINVAL, [])
  | some dev => VENDOR_CALL dev Op.start_recording []

/-- Function `camera_stop_recording` (lines 215-225). -/
def camera_stop_recording (logv : Bool) (device : Option wrapper_camera_device) :
    Option (Unit × List VendorCall) := do
  LOGV_vendor logv device
  match device with
  | none => pure ((), [])
  | some dev =>
    let r ← VENDOR_CALL dev Op.stop_recording []
    pure ((), r.2)

/-- Function `camera_recording_enabled` (lines 227-236). -/
def camera_recording_enabled (logv : Bool) (device : Option wrapper_camera_device) :
    Option (Int × List VendorCall) := do
  LOGV_vendor logv device
  match device with
  | none => pure (-EINVAL, [])
  | some dev => VENDOR_CALL dev Op.recording_enabled []

/-- Function `camera_release_recording_frame` (lines 238-248). -/
def camera_release_recording_frame (logv : Bool) (device : Option wrapper_camera_device)
    (opaque_ptr : Nat) : Option (Unit × List VendorCall) := do
  LOGV_vendor logv device
  match device with
  | none => pure ((), [])
  | some dev =>
    let r ← VENDOR_CALL dev Op.release_recording_frame [Arg.ptr opaque_ptr]
    pure ((), r.2)

/-- Function `camera_auto_focus` (lines 250-260). -/
def camera_auto_focus (logv : Bool) (device : Option wrapper_camera_device) :
    Option (Int × List VendorCall) := do
  LOGV_vendor logv device
  match device with
  | none => pure (-EINVAL, [])
  | some dev => VENDOR_CALL dev Op.auto_focus []

/-- Function `camera_cancel_auto_focus` (lines 262-272). -/
def camera_cancel_auto_focus (logv : Bool) (device : Option wrapper_camera_device) :
    Option (Int × List VendorCall) := do
  LOGV_vendor logv device
  match device with
  | none => pure (-EINVAL, [])
  | some dev => VENDOR_CALL dev Op.cancel_auto_focus []

/-- Function `camera_take_picture` (lines 274-283). -/
def camera_take_picture (logv : Bool) (device : Option wrapper_camera_device) :
    Option (Int × List VendorCall) := do
  LOGV_vendor logv device
  match device with
  | none => pure (-EINVAL, [])
  | some dev => VENDOR_CALL dev Op.take_picture []

/-- Function `camera_cancel_picture` (lines 285-294): the vendor member called on line
293 is `take_picture`. -/
def camera_cancel_picture (logv : Bool) (device : Option wrapper_camera_device) :
    Option (Int × List VendorCall) := do
  LOGV_vendor logv device
  match device with
  | none => pure (-EINVAL, [])
  | some dev => VENDOR_CALL dev Op.take_picture []

/-- Function `camera_set_parameters` (lines 296-311): the text goes through
`camera_fixup_setparams` and the result is handed to the vendor. -/
def camera_set_parameters (logv : Bool) (device : Option wrapper_camera_device)
    (params : String) : Option (Int × List VendorCall) := do
  LOGV_vendor logv device
  match device with
  | none => pure (-EINVAL, [])
  | some dev =>
    let params ← camera_fixup_setparams params
    VENDOR_CALL dev Op.set_parameters [Arg.str params]

/-- Function `camera_get_parameters` (lines 313-329): the text the vendor returns goes
through `camera_fixup_getparams`; the `String8(*settings)` there is an
undefined step when the vendor returned a null pointer. -/
def camera_get_parameters (logv : Bool) (device : Option wrapper_camera_device) :
    Option (Option String × List VendorCall) := do
  LOGV_vendor logv device
  match device with
  | none => pure (none, [])
  | some dev =>
    let vendor ← dev.vendor
    let params ← String8 vendor.parameters
    let params ← camera_fixup_getparams params
    pure (some params, [⟨Op.get_parameters, []⟩])

/-- Function `camera_put_parameters` (lines 331-346): the text goes through
`camera_fixup_putparams` and the result is handed to the vendor. -/
def camera_put_parameters (logv : Bool) (device : Option wrapper_camera_device)
    (params : String) : Option (Unit × List VendorCall) := do
  LOGV_vendor logv device
  match device with
  | none => pure ((), [])
  | some dev =>
    let params ← camera_fixup_putparams params
    let r ← VENDOR_CALL dev Op.put_parameters [Arg.str params]
    pure ((), r.2)

/-- Function `camera_send_command` (lines 348-358). -/
def camera_send_command (logv : Bool) (device : Option wrapper_camera_device)
    (cmd arg1 arg2 : Int) : Option (Int × List VendorCall) := do
  LOGV_vendor logv device
  match device with
  | none => pure (-EINVAL, [])
  | some dev => VENDOR_CALL dev Op.send_command [Arg.int cmd, Arg.int arg1, Arg.int arg2]

/-- Function `camera_release` (lines 360-369). -/
def camera_release (logv : Bool) (device : Option wrapper_camera_device) :
    Option (Unit × List VendorCall) := do
  LOGV_vendor logv device
  match device with
  | none => pure ((), [])
  | some dev =>
    let r ← VENDOR_CALL dev Op.release []
    pure ((), r.2)

/-- Function `camera_dump` (lines 371-377); it has no `LOGV` statement. -/
def camera_dump (device : Option wrapper_camera_device) (fd : Int) :
    Option (Int × List VendorCall) :=
  match device with
  | none => pure (-EINVAL, [])
  | some dev => VENDOR_CALL dev Op.dump [Arg.int fd]

/-! ## Opening a camera -/

/-- The vendor's `camera_module_t`: the number its `get_number_of_cameras`
returns, and what its `common.methods->open` does for a name: the value it
returns and the device pointer it stores. -/
structure camera_module_t where
  get_number_of_cameras : Int
  methods_open : String → Int × Option camera_device

/-- What `camera_device_open` finds around it: the global `gVendorModule`
(line 40), what `hw_get_module("vendor-camera", ...)` returns and stores,
`atoi` of `<stdlib.h>`, and whether each of the two `malloc` calls succeeds. -/
structure OpenEnv where
  gVendorModule : Option camera_module_t
  hw_get_module : Int × Option camera_module_t
  atoi : String → Int
  malloc_camera_device : Bool
  malloc_camera_ops : Bool

/-- What a call of `camera_device_open` leaves: the value returned, what was
written to `*device` (`none`: nothing was written; `some none`: `NULL`), and
the names the vendor module's `open` was called with. -/
structure OpenResult where
  rv : Int
  device : Option (Option wrapper_camera_device)
  vendor_opens : List String

/-- Function `check_vendor_module` (lines 82-94): the value returned and `gVendorModule`
afterwards. -/
def check_vendor_module (env : OpenEnv) : Int × Option camera_module_t :=
  match env.gVendorModule with
  | some m => (0, some m)
  | none => env.hw_get_module

/-- Function `camera_device_open` (lines 418-519).  Reading `gVendorModule` when it is
still null after `check_vendor_module` returned 0 is an undefined step. -/
def camera_device_open (env : OpenEnv) (name : Option String) : Option OpenResult :=
  match name with
  | none => some ⟨0, none, []⟩
  | some name =>
    if (check_vendor_module env).1 ≠ 0 then some ⟨-EINVAL, none, []⟩
    else
      match (check_vendor_module env).2 with
      | none => none
      | some vendorModule =>
        let cameraid := env.atoi name
        let num_cameras := vendorModule.get_number_of_cameras
        if cameraid > num_cameras then some ⟨-EINVAL, some none, []⟩
        else if env.malloc_camera_device = false then some ⟨-ENOMEM, some none, []⟩
        else
          let rv := (vendorModule.methods_open name).1
          if rv ≠ 0 then some ⟨rv, some none, [name]⟩
          else if env.malloc_camera_ops = false then some ⟨-ENOMEM, some none, [name]⟩
          else some ⟨0, some (some ⟨(vendorModule.methods_open name).2⟩), [name]⟩

end CameraWrapper

/-! ## States of the parameter map -/

namespace android

/-- The keys of the vector are in strictly increasing order, as a
`SortedVector` keeps them; in particular no key occurs twice. -/
def KeyedVector.Sorted (m : List (String × String)) : Prop :=
  m.Pairwise (fun a b => strLt a.1.data b.1.data = true)

/-- The parameter objects a program can hold: the freshly constructed one and
whatever `unflatten`, `set` and `remove` make of one. -/
inductive CameraParameters.Reachable : CameraParameters → Prop
  | empty : Reachable CameraParameters.empty
  | unflatten (params : String) : Reachable (CameraParameters.unflatten params)
  | set {p q : CameraParameters} (key : String) (value : Option String) :
      Reachable p → p.set key value = some q → Reachable q
  | remove {p : CameraParameters} (key : String) :
      Reachable p → Reachable (p.remove key)

/-- The invariant of the map: keys in strictly increasing order, and no key
holds `=`. -/
def CameraParameters.WellFormed (p : CameraParameters) : Prop :=
  KeyedVector.Sorted p.mMap ∧ ∀ kv ∈ p.mMap, '=' ∉ kv.1.data

/-- No value of the map holds `;`. -/
def CameraParameters.ValuesClean (p : CameraParameters) : Prop :=
  ∀ kv ∈ p.mMap, ';' ∉ kv.2.data

end android

/-! ## The key order -/

namespace android

theorem strLt_irrefl (a : List Char) : strLt a a = false := by
  induction a with
  | nil => rfl
  | cons x xs ih => simp [strLt, ih]

theorem strLt_asymm : ∀ (a b : List Char), strLt a b = true → strLt b a = false
  | [], [], _ => rfl
  | [], _ :: _, _ => rfl
  | _ :: _, [], h => by simp [strLt] at h
  | x :: xs, y :: ys, h => by
    unfold strLt at h ⊢
    by_cases hxy : x < y
    · have hyx : ¬ y < x := not_lt_of_lt hxy
      simp [hxy, hyx]
    · by_cases hyx : y < x
      · simp [hxy, hyx] at h
      · simp only [hxy, hyx, if_false] at h ⊢
        exact strLt_asymm xs ys h

theorem strLt_trans : ∀ (a b c : List Char), strLt a b = true → strLt b c = true →
    strLt a c = true
  | [], [], _, h, _ => by simp [strLt] at h
  | [], _ :: _, [], _, h => by simp [strLt] at h
  | [], _ :: _, _ :: _, _, _ => rfl
  | _ :: _, [], _, h, _ => by simp [strLt] at h
  | _ :: _, _ :: _, [], _, h => by simp [strLt] at h
  | x :: xs, y :: ys, z :: zs, h1, h2 => by
    unfold strLt at h1 h2 ⊢
    by_cases hxy : x < y
    · by_cases hyz : y < z
      · simp [lt_trans hxy hyz]
      · by_cases hzy : z < y
        · simp [hyz, hzy] at h2
        · have hyz' : y = z := le_antisymm (not_lt.mp hzy) (not_lt.mp hyz)
          subst hyz'
          simp [hxy]
    · by_cases hyx : y < x
      · simp [hxy, hyx] at h1
      · have hxy' : x = y := le_antisymm (not_lt.mp hyx) (not_lt.mp hxy)
        subst hxy'
        simp only [hxy, if_false] at h1
        by_cases hxz : x < z
        · simp [hxz]
        · by_cases hzx : z < x
          · simp [hxz, hzx] at h2
          · simp only [hxz, hzx, if_false] at h2 ⊢
            exact strLt_trans xs ys zs h1 h2

theorem strLt_total : ∀ (a b : List Char), strLt a b = false → strLt b a = false → a = b
  | [], [], _, _ => rfl
  | [], _ :: _, h, _ => by simp [strLt] at h
  | _ :: _, [], _, h => by simp [strLt] at h
  | x :: xs, y :: ys, h1, h2 => by
    unfold strLt at h1 h2
    by_cases hxy : x < y
    · simp [hxy] at h1
    · by_cases hyx : y < x
      · simp [hyx] at h2
      · have hxy' : x = y := le_antisymm (not_lt.mp hyx) (not_lt.mp hxy)
        subst hxy'
        simp only [hxy, if_false] at h1 h2
        rw [strLt_total xs ys h1 h2]

theorem strLt_of_ne {a b : String} (h1 : strLt a.data b.data = false) (h2 : a ≠ b) :
    strLt b.data a.data = true := by
  by_contra h
  have h3 : strLt b.data a.data = false := by simpa using h
  exact h2 (String.ext (strLt_total _ _ h1 h3))

/-! ## The sorted vector -/


namespace KeyedVector

theorem find_add_self (key value : String) (m : List (String × String)) :
    find key (add key value m) = some value := by
  induction m with
  | nil => simp [add, find]
  | cons kv rest ih =>
    obtain ⟨k, v⟩ := kv
    unfold add
    by_cases h1 : strLt key.data k.data = true
    · simp [h1, find]
    · by_cases h2 : key = k
      · subst h2
        simp [h1, find]
      · have h3 : ¬ k = key := fun h => h2 h.symm
        simp [h1, h2, find, h3, ih]

theorem find_add_ne {key k' : String} (value : String) (m : List (String × String))
    (h : k' ≠ key) : find k' (add key value m) = find k' m := by
  have h' : ¬ key = k' := fun e => h e.symm
  induction m with
  | nil => simp [add, find, h']
  | cons kv rest ih =>
    obtain ⟨k, v⟩ := kv
    unfold add
    by_cases h1 : strLt key.data k.data = true
    · simp [h1, find, h']
    · by_cases h2 : key = k
      · subst h2
        simp [h1, find, h']
      · by_cases h3 : k = k'
        · subst h3
          simp [h1, h2, find]
        · simp [h1, h2, find, h3, ih]

theorem find_removeItem_ne {key k' : String} (m : List (String × String))
    (h : k' ≠ key) : find k' (removeItem key m) = find k' m := by
  induction m with
  | nil => rfl
  | cons kv rest ih =>
    obtain ⟨k, v⟩ := kv
    unfold removeItem
    by_cases h1 : k = key
    · subst h1
      have h2 : ¬ k = k' := fun e => h e.symm
      simp [find, h2]
    · by_cases h3 : k = k'
      · subst h3
        simp [h1, find]
      · simp [h1, find, h3, ih]

theorem find_replaceValueFor_self (key value : String) (m : List (String × String)) :
    find key (replaceValueFor key value m) = some value :=
  find_add_self key value _

theorem find_replaceValueFor_ne {key k' : String} (value : String)
    (m : List (String × String)) (h : k' ≠ key) :
    find k' (replaceValueFor key value m) = find k' m := by
  unfold replaceValueFor
  rw [find_add_ne value _ h, find_removeItem_ne m h]

theorem find_eq_none_of_lt (key : String) (m : List (String × String))
    (h : ∀ kv ∈ m, strLt key.data kv.1.data = true) : find key m = none := by
  induction m with
  | nil => rfl
  | cons kv rest ih =>
    obtain ⟨k, v⟩ := kv
    have hk : strLt key.data k.data = true := h (k, v) (List.mem_cons_self _ _)
    have hne : ¬ k = key := by
      intro e
      subst e
      rw [strLt_irrefl] at hk
      exact Bool.false_ne_true hk
    simp only [find, hne, if_false]
    exact ih (fun kv hkv => h kv (List.mem_cons_of_mem _ hkv))

theorem find_removeItem_self (key : String) (m : List (String × String)) (hs : Sorted m) :
    find key (removeItem key m) = none := by
  induction m with
  | nil => rfl
  | cons kv rest ih =>
    obtain ⟨k, v⟩ := kv
    have hs' := List.pairwise_cons.mp hs
    unfold removeItem
    by_cases h1 : k = key
    · subst h1
      simp only [if_true]
      exact find_eq_none_of_lt k rest (fun kv hkv => hs'.1 kv hkv)
    · simp only [h1, if_false, find]
      exact ih hs'.2

theorem mem_add {key value : String} {m : List (String × String)} {kv : String × String}
    (h : kv ∈ add key value m) : kv = (key, value) ∨ kv ∈ m := by
  induction m with
  | nil => simpa [add] using h
  | cons x rest ih =>
    obtain ⟨k, v⟩ := x
    unfold add at h
    by_cases h1 : strLt key.data k.data = true
    · simp only [h1, if_true, List.mem_cons] at h
      rcases h with h | h | h
      · exact Or.inl h
      · exact Or.inr (h ▸ List.mem_cons_self _ _)
      · exact Or.inr (List.mem_cons_of_mem _ h)
    · by_cases h2 : key = k
      · subst h2
        simp only [h1, if_true, if_false, List.mem_cons, Bool.false_eq_true] at h
        rcases h with h | h
        · exact Or.inl h
        · exact Or.inr (List.mem_cons_of_mem _ h)
      · simp only [h1, h2, if_false, List.mem_cons, Bool.false_eq_true] at h
        rcases h with h | h
        · exact Or.inr (h ▸ List.mem_cons_self _ _)
        · rcases ih h with h | h
          · exact Or.inl h
          · exact Or.inr (List.mem_cons_of_mem _ h)

theorem removeItem_sublist (key : String) (m : List (String × String)) :
    List.Sublist (removeItem key m) m := by
  induction m with
  | nil => exact List.Sublist.refl _
  | cons x rest ih =>
    obtain ⟨k, v⟩ := x
    unfold removeItem
    by_cases h1 : k = key
    · simp only [h1, if_true]
      exact List.sublist_cons_self _ _
    · simp only [h1, if_false]
      exact ih.cons₂ _

theorem mem_removeItem {key : String} {m : List (String × String)} {kv : String × String}
    (h : kv ∈ removeItem key m) : kv ∈ m :=
  (removeItem_sublist key m).subset h

theorem sorted_removeItem (key : String) {m : List (String × String)} (hs : Sorted m) :
    Sorted (removeItem key m) :=
  List.Pairwise.sublist (removeItem_sublist key m) hs

theorem sorted_add (key value : String) {m : List (String × String)} (hs : Sorted m) :
    Sorted (add key value m) := by
  induction m with
  | nil => simp [add, Sorted]
  | cons x rest ih =>
    obtain ⟨k, v⟩ := x
    have hs' := List.pairwise_cons.mp hs
    unfold add
    by_cases h1 : strLt key.data k.data = true
    · simp only [h1, if_true]
      refine List.pairwise_cons.mpr ⟨?_, hs⟩
      intro kv hkv
      rcases List.mem_cons.mp hkv with h | h
      · rw [h]; exact h1
      · exact strLt_trans _ _ _ h1 (hs'.1 kv h)
    · by_cases h2 : key = k
      · subst h2
        simp only [h1, if_true, if_false]
        exact List.pairwise_cons.mpr ⟨fun kv hkv => hs'.1 kv hkv, hs'.2⟩
      · simp only [h1, h2, if_false]
        refine List.pairwise_cons.mpr ⟨?_, ih hs'.2⟩
        intro kv hkv
        rcases mem_add hkv with h | h
        · rw [h]
          exact strLt_of_ne (by simpa using h1) h2
        · exact hs'.1 kv h

theorem sorted_replaceValueFor (key value : String) {m : List (String × String)}
    (hs : Sorted m) : Sorted (replaceValueFor key value m) :=
  sorted_add key value (sorted_removeItem key hs)

theorem mem_replaceValueFor {key value : String} {m : List (String × String)}
    {kv : String × String} (h : kv ∈ replaceValueFor key value m) :
    kv = (key, value) ∨ kv ∈ m := by
  rcases mem_add h with h | h
  · exact Or.inl h
  · exact Or.inr (mem_removeItem h)

theorem add_eq_append (key value : String) (m : List (String × String))
    (h : ∀ kv ∈ m, strLt kv.1.data key.data = true) :
    add key value m = m ++ [(key, value)] := by
  induction m with
  | nil => rfl
  | cons x rest ih =>
    obtain ⟨k, v⟩ := x
    have hk : strLt k.data key.data = true := h (k, v) (List.mem_cons_self _ _)
    have h1 : strLt key.data k.data = false := strLt_asymm _ _ hk
    have h2 : ¬ key = k := by
      intro e
      subst e
      rw [strLt_irrefl] at hk
      exact Bool.false_ne_true hk
    unfold add
    simp only [h1, h2, if_false, List.cons_append, Bool.false_eq_true]
    rw [ih (fun kv hkv => h kv (List.mem_cons_of_mem _ hkv))]

theorem foldl_add_sorted (m acc : List (String × String)) (hs : Sorted (acc ++ m)) :
    m.foldl (fun a kv => add kv.1 kv.2 a) acc = acc ++ m := by
  induction m generalizing acc with
  | nil => simp
  | cons x rest ih =>
    have h1 : add x.1 x.2 acc = acc ++ [x] := by
      apply add_eq_append
      intro kv hkv
      have := List.pairwise_append.mp hs
      exact this.2.2 kv hkv x (List.mem_cons_self _ _)
    simp only [List.foldl_cons, h1]
    rw [ih (acc ++ [x]) (by simpa using hs)]
    simp

end KeyedVector

/-! ## The codec -/

namespace CameraParameters

theorem strchr_eq_none {c : Char} {a : List Char} (h : c ∉ a) : strchr c a = none := by
  induction a with
  | nil => rfl
  | cons x xs ih =>
    have hx : ¬ x = c := fun e => h (e ▸ List.mem_cons_self _ _)
    have hxs : c ∉ xs := fun e => h (List.mem_cons_of_mem _ e)
    simp [strchr, hx, ih hxs]

theorem strchr_append {c : Char} {before : List Char} (after : List Char)
    (h : c ∉ before) : strchr c (before ++ c :: after) = some (before, after) := by
  induction before with
  | nil => simp [strchr]
  | cons x xs ih =>
    have hx : ¬ x = c := fun e => h (e ▸ List.mem_cons_self _ _)
    have hxs : c ∉ xs := fun e => h (List.mem_cons_of_mem _ e)
    simp [strchr, hx, ih hxs]

theorem strchr_some {c : Char} {a before after : List Char}
    (h : strchr c a = some (before, after)) :
    c ∉ before ∧ a = before ++ c :: after := by
  induction a generalizing before with
  | nil => simp [strchr] at h
  | cons x xs ih =>
    unfold strchr at h
    by_cases hx : x = c
    · simp only [hx, if_true, Option.some.injEq, Prod.mk.injEq] at h
      obtain ⟨h1, h2⟩ := h
      subst h1 h2 hx
      simp
    · simp only [hx, if_false] at h
      cases hr : strchr c xs with
      | none => simp [hr] at h
      | some r =>
        obtain ⟨b, a'⟩ := r
        simp only [hr, Option.some.injEq, Prod.mk.injEq] at h
        obtain ⟨h1, h2⟩ := h
        subst h1 h2
        obtain ⟨i1, i2⟩ := ih hr
        refine ⟨?_, by rw [i2]; rfl⟩
        intro hm
        rcases List.mem_cons.mp hm with e | e
        · exact hx e.symm
        · exact i1 e

theorem strchr_none {c : Char} {a : List Char} (h : strchr c a = none) : c ∉ a := by
  induction a with
  | nil => simp
  | cons x xs ih =>
    unfold strchr at h
    by_cases hx : x = c
    · simp [hx] at h
    · simp only [hx, if_false] at h
      cases hr : strchr c xs with
      | none =>
        intro hm
        rcases List.mem_cons.mp hm with e | e
        · exact hx e.symm
        · exact ih hr e
      | some r => simp [hr] at h

theorem strchr_length {c : Char} {a before after : List Char}
    (h : strchr c a = some (before, after)) : after.length < a.length := by
  obtain ⟨_, h2⟩ := strchr_some h
  rw [h2]
  simp
  omega

/-- The number of rounds given to the loop of `unflatten` does not matter once
it reaches the length of the text: the loop always finishes within that many
rounds. -/
theorem unflattenLoop_fuel (fuel fuel' : Nat) (a : List Char) (m : List (String × String))
    (h : a.length ≤ fuel) (h' : a.length ≤ fuel') :
    unflattenLoop fuel a m = unflattenLoop fuel' a m := by
  induction fuel generalizing fuel' a m with
  | zero =>
    have ha : a = [] := List.length_eq_zero.mp (Nat.le_zero.mp h)
    subst ha
    cases fuel' with
    | zero => rfl
    | succ n => simp [unflattenLoop, strchr]
  | succ n ih =>
    cases fuel' with
    | zero =>
      have ha : a = [] := List.length_eq_zero.mp (Nat.le_zero.mp h')
      subst ha
      simp [unflattenLoop, strchr]
    | succ n' =>
      cases h1 : strchr '=' a with
      | none => simp only [unflattenLoop, h1]
      | some r1 =>
        obtain ⟨k, a1⟩ := r1
        have l1 := strchr_length h1
        cases h2 : strchr ';' a1 with
        | none => simp only [unflattenLoop, h1, h2]
        | some r2 =>
          obtain ⟨v, a2⟩ := r2
          have l2 := strchr_length h2
          simp only [unflattenLoop, h1, h2]
          exact ih n' a2 _ (by omega) (by omega)

theorem unflattenLoop_wellFormed (fuel : Nat) (a : List Char) (m : List (String × String))
    (hs : KeyedVector.Sorted m) (hk : ∀ kv ∈ m, '=' ∉ kv.1.data)
    (hv : ∀ kv ∈ m, ';' ∉ kv.2.data) :
    KeyedVector.Sorted (unflattenLoop fuel a m) ∧
      (∀ kv ∈ unflattenLoop fuel a m, '=' ∉ kv.1.data) ∧
      (∀ kv ∈ unflattenLoop fuel a m, ';' ∉ kv.2.data) := by
  induction fuel generalizing a m with
  | zero => exact ⟨hs, hk, hv⟩
  | succ n ih =>
    cases h1 : strchr '=' a with
    | none =>
      simp only [unflattenLoop, h1]
      exact ⟨hs, hk, hv⟩
    | some r1 =>
      obtain ⟨k, a1⟩ := r1
      have k1 := (strchr_some h1).1
      cases h2 : strchr ';' a1 with
      | none =>
        have v1 := strchr_none h2
        simp only [unflattenLoop, h1, h2]
        refine ⟨KeyedVector.sorted_add _ _ hs, ?_, ?_⟩
        · intro kv hkv
          rcases KeyedVector.mem_add hkv with e | e
          · rw [e]; exact k1
          · exact hk kv e
        · intro kv hkv
          rcases KeyedVector.mem_add hkv with e | e
          · rw [e]; exact v1
          · exact hv kv e
      | some r2 =>
        obtain ⟨v, a2⟩ := r2
        have v1 := (strchr_some h2).1
        simp only [unflattenLoop, h1, h2]
        apply ih
        · exact KeyedVector.sorted_add _ _ hs
        · intro kv hkv
          rcases KeyedVector.mem_add hkv with e | e
          · rw [e]; exact k1
          · exact hk kv e
        · intro kv hkv
          rcases KeyedVector.mem_add hkv with e | e
          · rw [e]; exact v1
          · exact hv kv e

theorem unflatten_wellFormed (params : String) : (unflatten params).WellFormed := by
  have h := unflattenLoop_wellFormed params.data.length params.data []
    (by simp [KeyedVector.Sorted]) (by simp) (by simp)
  exact ⟨h.1, h.2.1⟩

theorem unflatten_valuesClean (params : String) : (unflatten params).ValuesClean :=
  (unflattenLoop_wellFormed params.data.length params.data []
    (by simp [KeyedVector.Sorted]) (by simp) (by simp)).2.2

theorem flattenItems_cons_cons (k v : String) (x : String × String)
    (rest : List (String × String)) :
    (flattenItems ((k, v) :: x :: rest)).data =
      k.data ++ '=' :: (v.data ++ ';' :: (flattenItems (x :: rest)).data) := by
  simp [flattenItems, String.data_append]

theorem flattenItems_single (k v : String) :
    (flattenItems [(k, v)]).data = k.data ++ '=' :: v.data := by
  simp [flattenItems, String.data_append]

theorem unflattenLoop_flattenItems (m acc : List (String × String)) (fuel : Nat)
    (hk : ∀ kv ∈ m, '=' ∉ kv.1.data) (hv : ∀ kv ∈ m, ';' ∉ kv.2.data)
    (hf : (flattenItems m).data.length ≤ fuel) :
    unflattenLoop fuel (flattenItems m).data acc =
      m.foldl (fun a kv => KeyedVector.add kv.1 kv.2 a) acc := by
  induction m generalizing acc fuel with
  | nil =>
    cases fuel with
    | zero => rfl
    | succ n => simp [flattenItems, unflattenLoop, strchr]
  | cons x rest ih =>
    obtain ⟨k, v⟩ := x
    have hk1 : '=' ∉ k.data := hk (k, v) (List.mem_cons_self _ _)
    have hv1 : ';' ∉ v.data := hv (k, v) (List.mem_cons_self _ _)
    cases rest with
    | nil =>
      rw [flattenItems_single] at hf ⊢
      cases fuel with
      | zero => simp at hf
      | succ n =>
        unfold unflattenLoop
        rw [strchr_append _ hk1]
        simp only [strchr_eq_none hv1, List.foldl_cons, List.foldl_nil]
    | cons y rest' =>
      rw [flattenItems_cons_cons] at hf ⊢
      cases fuel with
      | zero => simp at hf
      | succ n =>
        unfold unflattenLoop
        rw [strchr_append _ hk1]
        simp only [strchr_append _ hv1, List.foldl_cons]
        apply ih
        · exact fun kv hkv => hk kv (List.mem_cons_of_mem _ hkv)
        · exact fun kv hkv => hv kv (List.mem_cons_of_mem _ hkv)
        · simp at hf ⊢
          omega

/-- Reading back what `flatten` wrote gives the same map, for a well-formed
map whose values hold no `;`. -/
theorem unflatten_flatten (p : CameraParameters) (hw : p.WellFormed) (hv : p.ValuesClean) :
    unflatten (flatten p) = p := by
  obtain ⟨m⟩ := p
  unfold unflatten flatten
  simp only
  rw [unflattenLoop_flattenItems m [] _ hw.2 hv (le_refl _)]
  rw [KeyedVector.foldl_add_sorted m [] (by simpa using hw.1)]
  simp

/-! ## The parameter object -/


theorem length_eq_zero_iff (v : String) : v.length = 0 ↔ v = "" := by
  constructor
  · intro h
    apply String.ext
    exact List.length_eq_zero.mp h
  · intro h
    rw [h]
    rfl

theorem get_eq_some_iff (p : CameraParameters) (key v : String) :
    p.get key = some v ↔ KeyedVector.find key p.mMap = some v ∧ v ≠ "" := by
  unfold get KeyedVector.valueFor
  cases h : KeyedVector.find key p.mMap with
  | none => simp [length_eq_zero_iff]
  | some w =>
    simp only [Option.getD_some, length_eq_zero_iff, Option.some.injEq]
    by_cases hw : w = ""
    · simp only [hw, if_true]
      constructor
      · intro e; cases e
      · rintro ⟨e, ne⟩; exact absurd e.symm ne
    · simp only [hw, if_false, Option.some.injEq]
      constructor
      · intro e; exact ⟨e, e ▸ hw⟩
      · rintro ⟨e, _⟩; exact e

theorem get_eq_none_of_find (p : CameraParameters) (key : String)
    (h : KeyedVector.find key p.mMap = none) : p.get key = none := by
  unfold get KeyedVector.valueFor
  simp [h]

theorem get_congr (p q : CameraParameters) (key : String)
    (h : KeyedVector.find key q.mMap = KeyedVector.find key p.mMap) :
    q.get key = p.get key := by
  unfold get KeyedVector.valueFor
  rw [h]

theorem set_clean (p : CameraParameters) (key value : String) (hk1 : '=' ∉ key.data)
    (hk2 : ';' ∉ key.data) (hv : '=' ∉ value.data) :
    p.set key (some value) = some ⟨KeyedVector.replaceValueFor key value p.mMap⟩ := by
  simp [set, hk1, hk2, hv]

theorem set_cases (p : CameraParameters) (key value : String) :
    p.set key (some value) = some p ∨
      ('=' ∉ key.data ∧
        p.set key (some value) = some ⟨KeyedVector.replaceValueFor key value p.mMap⟩) := by
  unfold set
  by_cases h1 : '=' ∈ key.data ∨ ';' ∈ key.data
  · simp only [h1, if_true]; exact Or.inl trivial
  · by_cases h2 : '=' ∈ value.data ∨ ';' ∈ key.data
    · simp only [h1, h2, if_true, if_false]; exact Or.inl trivial
    · simp only [h1, h2, if_false]
      exact Or.inr ⟨fun h => h1 (Or.inl h), trivial⟩

theorem replace_wellFormed (p : CameraParameters) (key value : String)
    (hw : p.WellFormed) (hk : '=' ∉ key.data) :
    WellFormed ⟨KeyedVector.replaceValueFor key value p.mMap⟩ := by
  refine ⟨KeyedVector.sorted_replaceValueFor key value hw.1, ?_⟩
  intro kv hkv
  rcases KeyedVector.mem_replaceValueFor hkv with e | e
  · rw [e]; exact hk
  · exact hw.2 kv e

theorem replace_valuesClean (p : CameraParameters) (key value : String)
    (hc : p.ValuesClean) (hv : ';' ∉ value.data) :
    ValuesClean ⟨KeyedVector.replaceValueFor key value p.mMap⟩ := by
  intro kv hkv
  rcases KeyedVector.mem_replaceValueFor hkv with e | e
  · rw [e]; exact hv
  · exact hc kv e

theorem set_wellFormed {p q : CameraParameters} {key : String} {value : Option String}
    (hw : p.WellFormed) (h : p.set key value = some q) : q.WellFormed := by
  cases value with
  | none => simp [set] at h
  | some value =>
    rcases set_cases p key value with e | ⟨hk, e⟩
    · rw [e] at h
      cases h
      exact hw
    · rw [e] at h
      cases h
      exact replace_wellFormed p key value hw hk

theorem remove_wellFormed (p : CameraParameters) (key : String) (hw : p.WellFormed) :
    (p.remove key).WellFormed :=
  ⟨KeyedVector.sorted_removeItem key hw.1, fun kv hkv => hw.2 kv (KeyedVector.mem_removeItem hkv)⟩

theorem remove_valuesClean (p : CameraParameters) (key : String) (hc : p.ValuesClean) :
    (p.remove key).ValuesClean :=
  fun kv hkv => hc kv (KeyedVector.mem_removeItem hkv)

theorem empty_wellFormed : empty.WellFormed := by
  constructor
  · simp [empty, KeyedVector.Sorted]
  · simp [empty]

/-- Every parameter object a program can hold is well formed. -/
theorem Reachable.wellFormed {p : CameraParameters} (h : p.Reachable) : p.WellFormed := by
  induction h with
  | empty => exact empty_wellFormed
  | unflatten params => exact unflatten_wellFormed params
  | set key value _ hset ih => exact set_wellFormed ih hset
  | remove key _ ih => exact remove_wellFormed _ key ih

theorem get_replace_self (m : List (String × String)) (key value : String)
    (h : value ≠ "") :
    get ⟨KeyedVector.replaceValueFor key value m⟩ key = some value :=
  (get_eq_some_iff _ _ _).mpr ⟨KeyedVector.find_replaceValueFor_self key value m, h⟩

theorem get_replace_ne (m : List (String × String)) {key k' : String} (value : String)
    (h : k' ≠ key) :
    get ⟨KeyedVector.replaceValueFor key value m⟩ k' = get ⟨m⟩ k' :=
  get_congr _ _ _ (KeyedVector.find_replaceValueFor_ne value m h)

theorem get_remove_ne (p : CameraParameters) {key k' : String} (h : k' ≠ key) :
    (p.remove key).get k' = p.get k' :=
  get_congr _ _ _ (KeyedVector.find_removeItem_ne p.mMap h)

theorem setPreviewSize_eq (p : CameraParameters) (z : String) (hz : '=' ∉ z.data) :
    p.set KEY_PREVIEW_SIZE (some z) =
      some ⟨KeyedVector.replaceValueFor KEY_PREVIEW_SIZE z p.mMap⟩ :=
  set_clean p _ z (by decide) (by decide) hz

theorem setVideoSize_eq (p : CameraParameters) (z : String) (hz : '=' ∉ z.data) :
    p.set KEY_VIDEO_SIZE (some z) =
      some ⟨KeyedVector.replaceValueFor KEY_VIDEO_SIZE z p.mMap⟩ :=
  set_clean p _ z (by decide) (by decide) hz

end CameraParameters

end android

/-! ## The fixups -/

namespace CameraWrapper

open android android.CameraParameters

theorem sizes_1920 (p : CameraParameters) :
    ((p.setPreviewSize 1920 1080).bind fun q =>
        (q.setVideoSize 1920 1080).bind fun y => some y.flatten) =
      some (flatten ⟨KeyedVector.replaceValueFor KEY_VIDEO_SIZE "1920x1080"
        (KeyedVector.replaceValueFor KEY_PREVIEW_SIZE "1920x1080" p.mMap)⟩) := by
  have e1 : p.setPreviewSize 1920 1080 = p.set KEY_PREVIEW_SIZE (some "1920x1080") := rfl
  have e2 : ∀ q : CameraParameters,
      q.setVideoSize 1920 1080 = q.set KEY_VIDEO_SIZE (some "1920x1080") := fun _ => rfl
  rw [e1, setPreviewSize_eq p "1920x1080" (by decide)]
  simp only [Option.some_bind, e2]
  rw [setVideoSize_eq _ "1920x1080" (by decide)]
  rfl

theorem sizes_1280 (p : CameraParameters) :
    ((p.setPreviewSize 1280 720).bind fun q =>
        (q.setVideoSize 1280 720).bind fun y => some y.flatten) =
      some (flatten ⟨KeyedVector.replaceValueFor KEY_VIDEO_SIZE "1280x720"
        (KeyedVector.replaceValueFor KEY_PREVIEW_SIZE "1280x720" p.mMap)⟩) := by
  have e1 : p.setPreviewSize 1280 720 = p.set KEY_PREVIEW_SIZE (some "1280x720") := rfl
  have e2 : ∀ q : CameraParameters,
      q.setVideoSize 1280 720 = q.set KEY_VIDEO_SIZE (some "1280x720") := fun _ => rfl
  rw [e1, setPreviewSize_eq p "1280x720" (by decide)]
  simp only [Option.some_bind, e2]
  rw [setVideoSize_eq _ "1280x720" (by decide)]
  rfl

theorem sizes_720 (p : CameraParameters) :
    ((p.setPreviewSize 720 480).bind fun q =>
        (q.setVideoSize 720 480).bind fun y => some y.flatten) =
      some (flatten ⟨KeyedVector.replaceValueFor KEY_VIDEO_SIZE "720x480"
        (KeyedVector.replaceValueFor KEY_PREVIEW_SIZE "720x480" p.mMap)⟩) := by
  have e1 : p.setPreviewSize 720 480 = p.set KEY_PREVIEW_SIZE (some "720x480") := rfl
  have e2 : ∀ q : CameraParameters,
      q.setVideoSize 720 480 = q.set KEY_VIDEO_SIZE (some "720x480") := fun _ => rfl
  rw [e1, setPreviewSize_eq p "720x480" (by decide)]
  simp only [Option.some_bind, e2]
  rw [setVideoSize_eq _ "720x480" (by decide)]
  rfl

/-- The three-way choice of the size, common to the three fixups. -/
theorem sizes_branch (p : CameraParameters) (s : String) :
    (if s = "1920x1080" then
        (p.setPreviewSize 1920 1080).bind fun q =>
          (q.setVideoSize 1920 1080).bind fun y => some y.flatten
      else if s = "1280x720" then
        (p.setPreviewSize 1280 720).bind fun q =>
          (q.setVideoSize 1280 720).bind fun y => some y.flatten
      else
        (p.setPreviewSize 720 480).bind fun q =>
          (q.setVideoSize 720 480).bind fun y => some y.flatten) =
      some (flatten ⟨KeyedVector.replaceValueFor KEY_VIDEO_SIZE
        (if s = "1920x1080" then "1920x1080" else if s = "1280x720" then "1280x720"
          else "720x480")
        (KeyedVector.replaceValueFor KEY_PREVIEW_SIZE
          (if s = "1920x1080" then "1920x1080" else if s = "1280x720" then "1280x720"
            else "720x480") p.mMap)⟩) := by
  by_cases h1 : s = "1920x1080"
  · simp only [h1, if_true]
    exact sizes_1920 p
  · by_cases h2 : s = "1280x720"
    · simp only [h1, h2, if_true, if_false]
      exact sizes_1280 p
    · simp only [h1, h2, if_false]
      exact sizes_720 p

theorem getparams_mode (settings c s : String)
    (hmode : (unflatten settings).get "cam_mode" = some c)
    (hsrc : (unflatten settings).get KEY_VIDEO_SIZE = some s) :
    camera_fixup_getparams settings = some (flatten
      ⟨KeyedVector.replaceValueFor KEY_VIDEO_SIZE
        (if s = "1920x1080" then "1920x1080" else if s = "1280x720" then "1280x720"
          else "720x480")
        (KeyedVector.replaceValueFor KEY_PREVIEW_SIZE
          (if s = "1920x1080" then "1920x1080" else if s = "1280x720" then "1280x720"
            else "720x480")
          (KeyedVector.replaceValueFor KEY_SUPPORTED_PREVIEW_SIZES "1920x1080,1280x720,720x480"
            (KeyedVector.removeItem KEY_SUPPORTED_VIDEO_SIZES (unflatten settings).mMap)))⟩) := by
  have h1 : ((unflatten settings).remove KEY_SUPPORTED_VIDEO_SIZES).get "cam_mode" = some c := by
    rw [get_remove_ne _ (by decide)]; exact hmode
  have h2 : ((unflatten settings).remove KEY_SUPPORTED_VIDEO_SIZES).set
      KEY_SUPPORTED_PREVIEW_SIZES (some "1920x1080,1280x720,720x480") = _ :=
    set_clean _ _ _ (by decide) (by decide) (by decide)
  have h3 : get ⟨KeyedVector.replaceValueFor KEY_SUPPORTED_PREVIEW_SIZES
      "1920x1080,1280x720,720x480"
      ((unflatten settings).remove KEY_SUPPORTED_VIDEO_SIZES).mMap⟩ KEY_VIDEO_SIZE = some s := by
    rw [get_replace_ne _ _ (by decide), get_remove_ne _ (by decide)]; exact hsrc
  unfold camera_fixup_getparams
  simp only [h1, h2, h3, String8, Option.isSome_some, if_true, Option.bind_eq_bind,
    Option.some_bind, Option.pure_def, bind_pure_comp, Option.map_eq_map]
  exact sizes_branch _ s

theorem getparams_nomode (settings : String)
    (hmode : (unflatten settings).get "cam_mode" = none) :
    camera_fixup_getparams settings =
      some (flatten ((unflatten settings).remove KEY_SUPPORTED_VIDEO_SIZES)) := by
  have h1 : ((unflatten settings).remove KEY_SUPPORTED_VIDEO_SIZES).get "cam_mode" = none := by
    rw [get_remove_ne _ (by decide)]; exact hmode
  unfold camera_fixup_getparams
  simp [h1]

theorem getparams_nosource (settings c : String)
    (hmode : (unflatten settings).get "cam_mode" = some c)
    (hsrc : (unflatten settings).get KEY_VIDEO_SIZE = none) :
    camera_fixup_getparams settings = none := by
  have h1 : ((unflatten settings).remove KEY_SUPPORTED_VIDEO_SIZES).get "cam_mode" = some c := by
    rw [get_remove_ne _ (by decide)]; exact hmode
  have h2 : ((unflatten settings).remove KEY_SUPPORTED_VIDEO_SIZES).set
      KEY_SUPPORTED_PREVIEW_SIZES (some "1920x1080,1280x720,720x480") = _ :=
    set_clean _ _ _ (by decide) (by decide) (by decide)
  have h3 : get ⟨KeyedVector.replaceValueFor KEY_SUPPORTED_PREVIEW_SIZES
      "1920x1080,1280x720,720x480"
      ((unflatten settings).remove KEY_SUPPORTED_VIDEO_SIZES).mMap⟩ KEY_VIDEO_SIZE = none := by
    rw [get_replace_ne _ _ (by decide), get_remove_ne _ (by decide)]; exact hsrc
  unfold camera_fixup_getparams
  simp [h1, h2, h3, String8]

end CameraWrapper

namespace android

theorem KeyedVector.find_mem {key v : String} {m : List (String × String)}
    (h : KeyedVector.find key m = some v) : (key, v) ∈ m := by
  induction m with
  | nil => simp [KeyedVector.find] at h
  | cons x rest ih =>
    obtain ⟨k, w⟩ := x
    unfold KeyedVector.find at h
    by_cases hk : k = key
    · simp only [hk, if_true, Option.some.injEq] at h
      rw [hk, h]
      exact List.mem_cons_self _ _
    · simp only [hk, if_false] at h
      exact List.mem_cons_of_mem _ (ih h)

namespace CameraParameters

theorem get_clean {p : CameraParameters} {key v : String} (hc : p.ValuesClean)
    (h : p.get key = some v) : ';' ∉ v.data :=
  hc (key, v) (KeyedVector.find_mem ((get_eq_some_iff p key v).mp h).1)

/-- What `set` does for a key without `=` and `;`: it succeeds, touches no other
key, stores the value unless the value holds `=`, and keeps the map well
formed. -/
theorem set_spec (p : CameraParameters) (key value : String)
    (hk1 : '=' ∉ key.data) (hk2 : ';' ∉ key.data) :
    ∃ q, p.set key (some value) = some q ∧
      (∀ k, k ≠ key → KeyedVector.find k q.mMap = KeyedVector.find k p.mMap) ∧
      ('=' ∉ value.data → KeyedVector.find key q.mMap = some value) ∧
      (p.WellFormed → q.WellFormed) ∧
      (';' ∉ value.data → p.ValuesClean → q.ValuesClean) := by
  by_cases hv : '=' ∈ value.data
  · refine ⟨p, by simp [set, hk1, hk2, hv], fun _ _ => rfl, fun h => absurd hv h,
      fun h => h, fun _ h => h⟩
  · refine ⟨_, set_clean p key value hk1 hk2 hv, ?_, ?_, ?_, ?_⟩
    · exact fun k hk => KeyedVector.find_replaceValueFor_ne value p.mMap hk
    · exact fun _ => KeyedVector.find_replaceValueFor_self key value p.mMap
    · exact fun hw => replace_wellFormed p key value hw hk1
    · exact fun hc hp => replace_valuesClean p key value hp hc

end CameraParameters

end android

namespace CameraWrapper

open android android.CameraParameters

theorem size_choice_clean (s : String) :
    '=' ∉ (if s = "1920x1080" then "1920x1080" else if s = "1280x720" then "1280x720"
        else "720x480" : String).data ∧
    ';' ∉ (if s = "1920x1080" then "1920x1080" else if s = "1280x720" then "1280x720"
        else "720x480" : String).data ∧
    (if s = "1920x1080" then "1920x1080" else if s = "1280x720" then "1280x720"
        else "720x480" : String) ≠ "" := by
  split_ifs <;> decide

/-- The map the common tail of the fixups leaves: both sizes are the chosen
one, every other key is as before. -/
theorem sizes_result (p : CameraParameters) (z : String) (hz : ';' ∉ z.data)
    (hw : p.WellFormed) (hc : p.ValuesClean) :
    WellFormed ⟨KeyedVector.replaceValueFor KEY_VIDEO_SIZE z
        (KeyedVector.replaceValueFor KEY_PREVIEW_SIZE z p.mMap)⟩ ∧
    ValuesClean ⟨KeyedVector.replaceValueFor KEY_VIDEO_SIZE z
        (KeyedVector.replaceValueFor KEY_PREVIEW_SIZE z p.mMap)⟩ ∧
    KeyedVector.find KEY_PREVIEW_SIZE (KeyedVector.replaceValueFor KEY_VIDEO_SIZE z
        (KeyedVector.replaceValueFor KEY_PREVIEW_SIZE z p.mMap)) = some z ∧
    KeyedVector.find KEY_VIDEO_SIZE (KeyedVector.replaceValueFor KEY_VIDEO_SIZE z
        (KeyedVector.replaceValueFor KEY_PREVIEW_SIZE z p.mMap)) = some z ∧
    ∀ k, k ≠ KEY_PREVIEW_SIZE → k ≠ KEY_VIDEO_SIZE →
      KeyedVector.find k (KeyedVector.replaceValueFor KEY_VIDEO_SIZE z
        (KeyedVector.replaceValueFor KEY_PREVIEW_SIZE z p.mMap)) =
        KeyedVector.find k p.mMap := by
  have w1 := replace_wellFormed p KEY_PREVIEW_SIZE z hw (by decide)
  have c1 := replace_valuesClean p KEY_PREVIEW_SIZE z hc hz
  refine ⟨replace_wellFormed _ KEY_VIDEO_SIZE z w1 (by decide),
    replace_valuesClean _ KEY_VIDEO_SIZE z c1 hz, ?_, ?_, ?_⟩
  · rw [KeyedVector.find_replaceValueFor_ne _ _ (by decide)]
    exact KeyedVector.find_replaceValueFor_self _ _ _
  · exact KeyedVector.find_replaceValueFor_self _ _ _
  · intro k h1 h2
    rw [KeyedVector.find_replaceValueFor_ne _ _ h2, KeyedVector.find_replaceValueFor_ne _ _ h1]


theorem setparams_result (settings c s : String)
    (hmode : (unflatten settings).get "cam_mode" = some c)
    (hsrc : (unflatten settings).get KEY_PREVIEW_SIZE = some s) :
    ∃ q : CameraParameters, camera_fixup_setparams settings = some (flatten q) ∧
      q.WellFormed ∧ q.ValuesClean ∧
      KeyedVector.find KEY_PREVIEW_SIZE q.mMap =
        some (if s = "1920x1080" then "1920x1080" else if s = "1280x720" then "1280x720"
          else "720x480") ∧
      KeyedVector.find KEY_VIDEO_SIZE q.mMap =
        some (if s = "1920x1080" then "1920x1080" else if s = "1280x720" then "1280x720"
          else "720x480") ∧
      KeyedVector.find KEY_SUPPORTED_VIDEO_SIZES q.mMap = some "1920x1080,1280x720,720x480" ∧
      ('=' ∉ s.data → KeyedVector.find KEY_PREFERRED_PREVIEW_SIZE_FOR_VIDEO q.mMap = some s) ∧
      ∀ k, k ≠ KEY_PREVIEW_SIZE → k ≠ KEY_VIDEO_SIZE → k ≠ KEY_SUPPORTED_VIDEO_SIZES →
        k ≠ KEY_PREFERRED_PREVIEW_SIZE_FOR_VIDEO →
        KeyedVector.find k q.mMap = KeyedVector.find k (unflatten settings).mMap := by
  have hw0 := unflatten_wellFormed settings
  have hc0 := unflatten_valuesClean settings
  have hs : ';' ∉ s.data := get_clean hc0 hsrc
  obtain ⟨q1, e1, f1, _, w1, c1⟩ :=
    set_spec (unflatten settings) KEY_VIDEO_SIZE s (by decide) (by decide)
  obtain ⟨q2, e2, f2, g2, w2, c2⟩ :=
    set_spec q1 KEY_PREFERRED_PREVIEW_SIZE_FOR_VIDEO s (by decide) (by decide)
  obtain ⟨q3, e3, f3, g3, w3, c3⟩ :=
    set_spec q2 KEY_SUPPORTED_VIDEO_SIZES "1920x1080,1280x720,720x480" (by decide) (by decide)
  have hw3 : q3.WellFormed := w3 (w2 (w1 hw0))
  have hc3 : q3.ValuesClean := c3 (by decide) (c2 hs (c1 hs hc0))
  obtain ⟨zc1, zc2, _⟩ := size_choice_clean s
  obtain ⟨rw1, rc1, rp, rv, rf⟩ := sizes_result q3 _ zc2 hw3 hc3
  refine ⟨_, ?_, rw1, rc1, rp, rv, ?_, ?_, ?_⟩
  · unfold camera_fixup_setparams
    simp only [hmode, hsrc, e1, e2, e3, String8, Option.isSome_some, if_true,
      Option.bind_eq_bind, Option.some_bind, Option.pure_def, bind_pure_comp,
      Option.map_eq_map]
    exact sizes_branch q3 s
  · rw [rf _ (by decide) (by decide)]
    exact g3 (by decide)
  · intro hs'
    rw [rf _ (by decide) (by decide), f3 _ (by decide)]
    exact g2 hs'
  · intro k h1 h2 h3 h4
    rw [rf k h1 h2, f3 k h3, f2 k h4, f1 k h2]

theorem setparams_nomode (settings : String)
    (hmode : (unflatten settings).get "cam_mode" = none) :
    camera_fixup_setparams settings = some (flatten (unflatten settings)) := by
  unfold camera_fixup_setparams
  simp [hmode]

theorem setparams_nosource (settings c : String)
    (hmode : (unflatten settings).get "cam_mode" = some c)
    (hsrc : (unflatten settings).get KEY_PREVIEW_SIZE = none) :
    camera_fixup_setparams settings = none := by
  unfold camera_fixup_setparams
  simp [hmode, hsrc, CameraParameters.set]

theorem putparams_result (settings c s : String)
    (hmode : (unflatten settings).get "cam_mode" = some c)
    (hsrc : (unflatten settings).get KEY_VIDEO_SIZE = some s) :
    ∃ q : CameraParameters, camera_fixup_putparams settings = some (flatten q) ∧
      q.WellFormed ∧ q.ValuesClean ∧
      KeyedVector.find KEY_PREVIEW_SIZE q.mMap =
        some (if s = "1920x1080" then "1920x1080" else if s = "1280x720" then "1280x720"
          else "720x480") ∧
      KeyedVector.find KEY_VIDEO_SIZE q.mMap =
        some (if s = "1920x1080" then "1920x1080" else if s = "1280x720" then "1280x720"
          else "720x480") ∧
      ('=' ∉ s.data → KeyedVector.find KEY_PREFERRED_PREVIEW_SIZE_FOR_VIDEO q.mMap = some s) ∧
      ∀ k, k ≠ KEY_PREVIEW_SIZE → k ≠ KEY_VIDEO_SIZE →
        k ≠ KEY_PREFERRED_PREVIEW_SIZE_FOR_VIDEO →
        KeyedVector.find k q.mMap = KeyedVector.find k (unflatten settings).mMap := by
  have hw0 := unflatten_wellFormed settings
  have hc0 := unflatten_valuesClean settings
  have hs : ';' ∉ s.data := get_clean hc0 hsrc
  obtain ⟨q1, e1, f1, _, w1, c1⟩ :=
    set_spec (unflatten settings) KEY_PREVIEW_SIZE s (by decide) (by decide)
  obtain ⟨q2, e2, f2, g2, w2, c2⟩ :=
    set_spec q1 KEY_PREFERRED_PREVIEW_SIZE_FOR_VIDEO s (by decide) (by decide)
  have hw2 : q2.WellFormed := w2 (w1 hw0)
  have hc2 : q2.ValuesClean := c2 hs (c1 hs hc0)
  obtain ⟨zc1, zc2, _⟩ := size_choice_clean s
  obtain ⟨rw1, rc1, rp, rv, rf⟩ := sizes_result q2 _ zc2 hw2 hc2
  refine ⟨_, ?_, rw1, rc1, rp, rv, ?_, ?_⟩
  · unfold camera_fixup_putparams
    simp only [hmode, hsrc, e1, e2, String8, Option.isSome_some, if_true,
      Option.bind_eq_bind, Option.some_bind, Option.pure_def, bind_pure_comp,
      Option.map_eq_map]
    exact sizes_branch q2 s
  · intro hs'
    rw [rf _ (by decide) (by decide)]
    exact g2 hs'
  · intro k h1 h2 h4
    rw [rf k h1 h2, f2 k h4, f1 k h1]

theorem putparams_nomode (settings : String)
    (hmode : (unflatten settings).get "cam_mode" = none) :
    camera_fixup_putparams settings = some (flatten (unflatten settings)) := by
  unfold camera_fixup_putparams
  simp [hmode]

theorem putparams_nosource (settings c : String)
    (hmode : (unflatten settings).get "cam_mode" = some c)
    (hsrc : (unflatten settings).get KEY_VIDEO_SIZE = none) :
    camera_fixup_putparams settings = none := by
  unfold camera_fixup_putparams
  simp [hmode, hsrc, CameraParameters.set]

theorem getparams_result (settings c s : String)
    (hmode : (unflatten settings).get "cam_mode" = some c)
    (hsrc : (unflatten settings).get KEY_VIDEO_SIZE = some s) :
    ∃ q : CameraParameters, camera_fixup_getparams settings = some (flatten q) ∧
      q.WellFormed ∧ q.ValuesClean ∧
      KeyedVector.find KEY_PREVIEW_SIZE q.mMap =
        some (if s = "1920x1080" then "1920x1080" else if s = "1280x720" then "1280x720"
          else "720x480") ∧
      KeyedVector.find KEY_VIDEO_SIZE q.mMap =
        some (if s = "1920x1080" then "1920x1080" else if s = "1280x720" then "1280x720"
          else "720x480") ∧
      KeyedVector.find KEY_SUPPORTED_PREVIEW_SIZES q.mMap = some "1920x1080,1280x720,720x480" ∧
      KeyedVector.find KEY_SUPPORTED_VIDEO_SIZES q.mMap = none ∧
      ∀ k, k ≠ KEY_PREVIEW_SIZE → k ≠ KEY_VIDEO_SIZE → k ≠ KEY_SUPPORTED_PREVIEW_SIZES →
        k ≠ KEY_SUPPORTED_VIDEO_SIZES →
        KeyedVector.find k q.mMap = KeyedVector.find k (unflatten settings).mMap := by
  have hw0 := unflatten_wellFormed settings
  have hc0 := unflatten_valuesClean settings
  have hw1 := remove_wellFormed _ KEY_SUPPORTED_VIDEO_SIZES hw0
  have hc1 := remove_valuesClean _ KEY_SUPPORTED_VIDEO_SIZES hc0
  have hw2 := replace_wellFormed _ KEY_SUPPORTED_PREVIEW_SIZES "1920x1080,1280x720,720x480"
    hw1 (by decide)
  have hc2 := replace_valuesClean _ KEY_SUPPORTED_PREVIEW_SIZES "1920x1080,1280x720,720x480"
    hc1 (by decide)
  obtain ⟨zc1, zc2, _⟩ := size_choice_clean s
  have hres := sizes_result _ _ zc2 hw2 hc2
  dsimp only [remove] at hres
  obtain ⟨rw1, rc1, rp, rv, rf⟩ := hres
  refine ⟨_, getparams_mode settings c s hmode hsrc, rw1, rc1, rp, rv, ?_, ?_, ?_⟩
  · rw [rf _ (by decide) (by decide)]
    exact KeyedVector.find_replaceValueFor_self _ _ _
  · rw [rf _ (by decide) (by decide), KeyedVector.find_replaceValueFor_ne _ _ (by decide)]
    exact KeyedVector.find_removeItem_self _ _ hw0.1
  · intro k h1 h2 h3 h4
    rw [rf k h1 h2, KeyedVector.find_replaceValueFor_ne _ _ h3]
    exact KeyedVector.find_removeItem_ne _ h4

end CameraWrapper

/-! ## The claims about the fixups -/

namespace CameraWrapper

open android android.CameraParameters

/-- C1 (counterexample).  The sizes are not rewritten for every input that holds
the key `cam_mode`: in `"cam_mode=;video-size=1920x1080"` the key is there with
an empty value, `get("cam_mode")` is null, and the get fixup returns the text
unchanged, without a preview size.  And a source field that is present with the
empty string does not give `720x480`: for `"cam_mode=1;video-size="` the
`get` of the video size is null and the three fixups stop at the `String8`
built from it (`set` for the preview size alike). -/
theorem fixup_sizes_counterexample :
    KeyedVector.find "cam_mode" (unflatten "cam_mode=;video-size=1920x1080").mMap = some "" ∧
    KeyedVector.find KEY_VIDEO_SIZE (unflatten "cam_mode=;video-size=1920x1080").mMap =
      some "1920x1080" ∧
    camera_fixup_getparams "cam_mode=;video-size=1920x1080" =
      some "cam_mode=;video-size=1920x1080" ∧
    (unflatten "cam_mode=;video-size=1920x1080").get KEY_PREVIEW_SIZE = none ∧
    KeyedVector.find KEY_VIDEO_SIZE (unflatten "cam_mode=1;video-size=").mMap = some "" ∧
    camera_fixup_getparams "cam_mode=1;video-size=" = none ∧
    camera_fixup_putparams "cam_mode=1;video-size=" = none ∧
    KeyedVector.find KEY_PREVIEW_SIZE (unflatten "cam_mode=1;preview-size=").mMap = some "" ∧
    camera_fixup_setparams "cam_mode=1;preview-size=" = none := by
  decide

/-- C1 (amended).  For each of the three fixups and every input in which
`cam_mode` has a non-empty value (`get("cam_mode")` returns `c`) and the source
field (video size for get and put, preview size for set) has a non-empty value
`s`: the fixup returns a text in which preview size and video size are both
`1920x1080` when `s` is exactly `1920x1080`, both `1280x720` when `s` is
exactly `1280x720`, and both `720x480` for every other `s`. -/
theorem fixup_sizes (settings c s : String)
    (hmode : (unflatten settings).get "cam_mode" = some c) :
    ((unflatten settings).get KEY_VIDEO_SIZE = some s →
      ∃ out, camera_fixup_getparams settings = some out ∧
        (unflatten out).get KEY_PREVIEW_SIZE =
          some (if s = "1920x1080" then "1920x1080" else if s = "1280x720" then "1280x720"
            else "720x480") ∧
        (unflatten out).get KEY_VIDEO_SIZE =
          some (if s = "1920x1080" then "1920x1080" else if s = "1280x720" then "1280x720"
            else "720x480")) ∧
    ((unflatten settings).get KEY_PREVIEW_SIZE = some s →
      ∃ out, camera_fixup_setparams settings = some out ∧
        (unflatten out).get KEY_PREVIEW_SIZE =
          some (if s = "1920x1080" then "1920x1080" else if s = "1280x720" then "1280x720"
            else "720x480") ∧
        (unflatten out).get KEY_VIDEO_SIZE =
          some (if s = "1920x1080" then "1920x1080" else if s = "1280x720" then "1280x720"
            else "720x480")) ∧
    ((unflatten settings).get KEY_VIDEO_SIZE = some s →
      ∃ out, camera_fixup_putparams settings = some out ∧
        (unflatten out).get KEY_PREVIEW_SIZE =
          some (if s = "1920x1080" then "1920x1080" else if s = "1280x720" then "1280x720"
            else "720x480") ∧
        (unflatten out).get KEY_VIDEO_SIZE =
          some (if s = "1920x1080" then "1920x1080" else if s = "1280x720" then "1280x720"
            else "720x480")) := by
  have hz := (size_choice_clean s).2.2
  refine ⟨fun hsrc => ?_, fun hsrc => ?_, fun hsrc => ?_⟩
  · obtain ⟨q, e, hw, hc, hp, hv, _⟩ := getparams_result settings c s hmode hsrc
    refine ⟨_, e, ?_, ?_⟩ <;> rw [unflatten_flatten q hw hc]
    · exact (get_eq_some_iff _ _ _).mpr ⟨hp, hz⟩
    · exact (get_eq_some_iff _ _ _).mpr ⟨hv, hz⟩
  · obtain ⟨q, e, hw, hc, hp, hv, _⟩ := setparams_result settings c s hmode hsrc
    refine ⟨_, e, ?_, ?_⟩ <;> rw [unflatten_flatten q hw hc]
    · exact (get_eq_some_iff _ _ _).mpr ⟨hp, hz⟩
    · exact (get_eq_some_iff _ _ _).mpr ⟨hv, hz⟩
  · obtain ⟨q, e, hw, hc, hp, hv, _⟩ := putparams_result settings c s hmode hsrc
    refine ⟨_, e, ?_, ?_⟩ <;> rw [unflatten_flatten q hw hc]
    · exact (get_eq_some_iff _ _ _).mpr ⟨hp, hz⟩
    · exact (get_eq_some_iff _ _ _).mpr ⟨hv, hz⟩

/-- C1 (witness).  The input `"cam_mode=1;preview-size=1280x720;video-size=640x480"`:
the get and the put fixup, reading the video size, leave both sizes at
`720x480`, and the set fixup, reading the preview size, leaves both at
`1280x720`. -/
theorem fixup_sizes_witness :
    (unflatten "cam_mode=1;preview-size=1280x720;video-size=640x480").get "cam_mode" =
      some "1" ∧
    (∃ out, camera_fixup_getparams "cam_mode=1;preview-size=1280x720;video-size=640x480" =
        some out ∧
      (unflatten out).get KEY_PREVIEW_SIZE = some "720x480" ∧
      (unflatten out).get KEY_VIDEO_SIZE = some "720x480") ∧
    (∃ out, camera_fixup_setparams "cam_mode=1;preview-size=1280x720;video-size=640x480" =
        some out ∧
      (unflatten out).get KEY_PREVIEW_SIZE = some "1280x720" ∧
      (unflatten out).get KEY_VIDEO_SIZE = some "1280x720") ∧
    (∃ out, camera_fixup_putparams "cam_mode=1;preview-size=1280x720;video-size=640x480" =
        some out ∧
      (unflatten out).get KEY_PREVIEW_SIZE = some "720x480" ∧
      (unflatten out).get KEY_VIDEO_SIZE = some "720x480") :=
  ⟨by decide,
    (fixup_sizes "cam_mode=1;preview-size=1280x720;video-size=640x480" "1" "640x480"
      (by decide)).1 (by decide),
    (fixup_sizes "cam_mode=1;preview-size=1280x720;video-size=640x480" "1" "1280x720"
      (by decide)).2.1 (by decide),
    (fixup_sizes "cam_mode=1;preview-size=1280x720;video-size=640x480" "1" "640x480"
      (by decide)).2.2 (by decide)⟩


set_option maxRecDepth 100000

/-- C2 (counterexample).  The set fixup on `"cam_mode=1;preview-size=640x480"`
leaves the preferred preview size for video at `640x480`, the value it read,
while preview size and video size become the fallback `720x480`; the put fixup
does the same for `"cam_mode=1;video-size=640x480"`. -/
theorem preferred_size_counterexample :
    (unflatten "cam_mode=1;preview-size=640x480").get KEY_PREVIEW_SIZE = some "640x480" ∧
    camera_fixup_setparams "cam_mode=1;preview-size=640x480" =
      some ("cam_mode=1;preferred-preview-size-for-video=640x480;preview-size=720x480;" ++
        "video-size=720x480;video-size-values=1920x1080,1280x720,720x480") ∧
    (unflatten ("cam_mode=1;preferred-preview-size-for-video=640x480;preview-size=720x480;" ++
        "video-size=720x480;video-size-values=1920x1080,1280x720,720x480")).get
      KEY_PREFERRED_PREVIEW_SIZE_FOR_VIDEO = some "640x480" ∧
    (unflatten ("cam_mode=1;preferred-preview-size-for-video=640x480;preview-size=720x480;" ++
        "video-size=720x480;video-size-values=1920x1080,1280x720,720x480")).get
      KEY_PREVIEW_SIZE = some "720x480" ∧
    camera_fixup_putparams "cam_mode=1;video-size=640x480" =
      some ("cam_mode=1;preferred-preview-size-for-video=640x480;preview-size=720x480;" ++
        "video-size=720x480") := by
  decide

/-- C2 (amended).  On the set path and on the put path the preferred preview
size for video receives the value read from the source field, not the size
chosen from the table: for every input in which `cam_mode` has a non-empty
value and the source field (preview size for set, video size for put) has a
non-empty value `s` without `=`, the result has the preferred preview size for
video equal to `s`.  (It equals the result's preview and video size when `s`
is `1920x1080` or `1280x720`, the two sizes the table maps to themselves.) -/
theorem preferred_size (settings c s : String)
    (hmode : (unflatten settings).get "cam_mode" = some c) (hs : '=' ∉ s.data) :
    ((unflatten settings).get KEY_PREVIEW_SIZE = some s →
      ∃ out, camera_fixup_setparams settings = some out ∧
        (unflatten out).get KEY_PREFERRED_PREVIEW_SIZE_FOR_VIDEO = some s) ∧
    ((unflatten settings).get KEY_VIDEO_SIZE = some s →
      ∃ out, camera_fixup_putparams settings = some out ∧
        (unflatten out).get KEY_PREFERRED_PREVIEW_SIZE_FOR_VIDEO = some s) := by
  refine ⟨fun hsrc => ?_, fun hsrc => ?_⟩
  · obtain ⟨q, e, hw, hc, _, _, _, hpref, _⟩ := setparams_result settings c s hmode hsrc
    refine ⟨_, e, ?_⟩
    rw [unflatten_flatten q hw hc]
    exact (get_eq_some_iff _ _ _).mpr ⟨hpref hs, ((get_eq_some_iff _ _ _).mp hsrc).2⟩
  · obtain ⟨q, e, hw, hc, _, _, hpref, _⟩ := putparams_result settings c s hmode hsrc
    refine ⟨_, e, ?_⟩
    rw [unflatten_flatten q hw hc]
    exact (get_eq_some_iff _ _ _).mpr ⟨hpref hs, ((get_eq_some_iff _ _ _).mp hsrc).2⟩

/-- C2 (witness).  The set path of the spec's scenario,
`"cam_mode=1;preview-size=1280x720"`, gives the preferred preview size for
video `1280x720`; the put path on `"cam_mode=1;video-size=640x480"` gives
`640x480`. -/
theorem preferred_size_witness :
    (∃ out, camera_fixup_setparams "cam_mode=1;preview-size=1280x720" = some out ∧
      (unflatten out).get KEY_PREFERRED_PREVIEW_SIZE_FOR_VIDEO = some "1280x720") ∧
    (∃ out, camera_fixup_putparams "cam_mode=1;video-size=640x480" = some out ∧
      (unflatten out).get KEY_PREFERRED_PREVIEW_SIZE_FOR_VIDEO = some "640x480") :=
  ⟨(preferred_size "cam_mode=1;preview-size=1280x720" "1" "1280x720" (by decide)
      (by decide)).1 (by decide),
    (preferred_size "cam_mode=1;video-size=640x480" "1" "640x480" (by decide)
      (by decide)).2 (by decide)⟩

/-- C3 (counterexample).  The input `"preview-size-values=640x480"` has no
`cam_mode`, and the get fixup returns it as it is: the list of supported
preview sizes is still there. -/
theorem getparams_removal_counterexample :
    KeyedVector.find "cam_mode" (unflatten "preview-size-values=640x480").mMap = none ∧
    camera_fixup_getparams "preview-size-values=640x480" =
      some "preview-size-values=640x480" ∧
    KeyedVector.find KEY_SUPPORTED_PREVIEW_SIZES
      (unflatten "preview-size-values=640x480").mMap = some "640x480" := by
  decide

/-- C3 (amended).  `camera_fixup_getparams` removes the key of the supported
video sizes (`KEY_SUPPORTED_VIDEO_SIZES`) before the mode check: for every
input without `cam_mode` the result holds no entry for the supported video
sizes, whatever the input held for that key, and the entry for the supported
preview sizes is as the input had it. -/
theorem getparams_removal (settings : String)
    (hmode : KeyedVector.find "cam_mode" (unflatten settings).mMap = none) :
    ∃ out, camera_fixup_getparams settings = some out ∧
      KeyedVector.find KEY_SUPPORTED_VIDEO_SIZES (unflatten out).mMap = none ∧
      KeyedVector.find KEY_SUPPORTED_PREVIEW_SIZES (unflatten out).mMap =
        KeyedVector.find KEY_SUPPORTED_PREVIEW_SIZES (unflatten settings).mMap := by
  have hw0 := unflatten_wellFormed settings
  have hc0 := unflatten_valuesClean settings
  refine ⟨_, getparams_nomode settings (get_eq_none_of_find _ _ hmode), ?_, ?_⟩
  · rw [unflatten_flatten _ (remove_wellFormed _ _ hw0) (remove_valuesClean _ _ hc0)]
    exact KeyedVector.find_removeItem_self _ _ hw0.1
  · rw [unflatten_flatten _ (remove_wellFormed _ _ hw0) (remove_valuesClean _ _ hc0)]
    exact KeyedVector.find_removeItem_ne _ (by decide)

/-- C3 (witness).  On `"preview-size-values=640x480;video-size-values=320x240"`
the get fixup drops the supported video sizes and keeps the supported preview
sizes. -/
theorem getparams_removal_witness :
    ∃ out,
      camera_fixup_getparams "preview-size-values=640x480;video-size-values=320x240" =
        some out ∧
      KeyedVector.find KEY_SUPPORTED_VIDEO_SIZES (unflatten out).mMap = none ∧
      KeyedVector.find KEY_SUPPORTED_PREVIEW_SIZES (unflatten out).mMap =
        KeyedVector.find KEY_SUPPORTED_PREVIEW_SIZES
          (unflatten "preview-size-values=640x480;video-size-values=320x240").mMap :=
  getparams_removal "preview-size-values=640x480;video-size-values=320x240" (by decide)

/-- C4 (counterexample).  The input `"video-size-values=640x480"` has no
`cam_mode`; the get fixup returns the empty text, so the key of the supported
video sizes, which is not the key of the supported preview sizes, is not in
the result with its input value. -/
theorem mode_gated_counterexample :
    KeyedVector.find "cam_mode" (unflatten "video-size-values=640x480").mMap = none ∧
    KEY_SUPPORTED_VIDEO_SIZES ≠ KEY_SUPPORTED_PREVIEW_SIZES ∧
    KeyedVector.find KEY_SUPPORTED_VIDEO_SIZES (unflatten "video-size-values=640x480").mMap =
      some "640x480" ∧
    camera_fixup_getparams "video-size-values=640x480" = some "" ∧
    KeyedVector.find KEY_SUPPORTED_VIDEO_SIZES (unflatten "").mMap = none := by
  decide

/-- C4 (amended).  For every input without the key `cam_mode`: the result of
`camera_fixup_setparams` and of `camera_fixup_putparams` parses to the same map
as the input, and in the result of `camera_fixup_getparams` every key other
than the key of the supported video sizes has the value it has in the input
(or is absent as in the input). -/
theorem mode_gated (settings : String)
    (hmode : KeyedVector.find "cam_mode" (unflatten settings).mMap = none) :
    (∃ out, camera_fixup_setparams settings = some out ∧
      unflatten out = unflatten settings) ∧
    (∃ out, camera_fixup_putparams settings = some out ∧
      unflatten out = unflatten settings) ∧
    (∃ out, camera_fixup_getparams settings = some out ∧
      ∀ k, k ≠ KEY_SUPPORTED_VIDEO_SIZES →
        KeyedVector.find k (unflatten out).mMap =
          KeyedVector.find k (unflatten settings).mMap) := by
  have hw0 := unflatten_wellFormed settings
  have hc0 := unflatten_valuesClean settings
  have hget := get_eq_none_of_find _ _ hmode
  refine ⟨⟨_, setparams_nomode settings hget, unflatten_flatten _ hw0 hc0⟩,
    ⟨_, putparams_nomode settings hget, unflatten_flatten _ hw0 hc0⟩,
    ⟨_, getparams_nomode settings hget, ?_⟩⟩
  intro k hk
  rw [unflatten_flatten _ (remove_wellFormed _ _ hw0) (remove_valuesClean _ _ hc0)]
  exact KeyedVector.find_removeItem_ne _ hk

/-- C4 (witness).  The input `"video-size=640x480;zoom=2"`, which has no
`cam_mode`. -/
theorem mode_gated_witness :
    (∃ out, camera_fixup_setparams "video-size=640x480;zoom=2" = some out ∧
      unflatten out = unflatten "video-size=640x480;zoom=2") ∧
    (∃ out, camera_fixup_putparams "video-size=640x480;zoom=2" = some out ∧
      unflatten out = unflatten "video-size=640x480;zoom=2") ∧
    (∃ out, camera_fixup_getparams "video-size=640x480;zoom=2" = some out ∧
      ∀ k, k ≠ KEY_SUPPORTED_VIDEO_SIZES →
        KeyedVector.find k (unflatten out).mMap =
          KeyedVector.find k (unflatten "video-size=640x480;zoom=2").mMap) :=
  mode_gated "video-size=640x480;zoom=2" (by decide)

/-- C5 (counterexample).  In `"cam_mode=;video-size=1280x720"` the key
`cam_mode` is present (with an empty value), and the get fixup writes no list
of supported preview sizes; in `"cam_mode=;preview-size=1280x720"` likewise
the set fixup writes no list of supported video sizes. -/
theorem size_list_counterexample :
    KeyedVector.find "cam_mode" (unflatten "cam_mode=;video-size=1280x720").mMap = some "" ∧
    camera_fixup_getparams "cam_mode=;video-size=1280x720" =
      some "cam_mode=;video-size=1280x720" ∧
    (unflatten "cam_mode=;video-size=1280x720").get KEY_SUPPORTED_PREVIEW_SIZES = none ∧
    KeyedVector.find "cam_mode" (unflatten "cam_mode=;preview-size=1280x720").mMap = some "" ∧
    camera_fixup_setparams "cam_mode=;preview-size=1280x720" =
      some "cam_mode=;preview-size=1280x720" ∧
    (unflatten "cam_mode=;preview-size=1280x720").get KEY_SUPPORTED_VIDEO_SIZES = none := by
  decide

/-- C5 (amended).  Whenever `cam_mode` has a non-empty value in the input and
the source field has a non-empty value `s`, the fixed list is written whichever
branch of the size match is taken: the result of `camera_fixup_getparams` has
the supported preview sizes equal to exactly `1920x1080,1280x720,720x480`, and
the result of `camera_fixup_setparams` has the supported video sizes equal to
exactly that list, for every such `s`. -/
theorem size_list (settings c s : String)
    (hmode : (unflatten settings).get "cam_mode" = some c) :
    ((unflatten settings).get KEY_VIDEO_SIZE = some s →
      ∃ out, camera_fixup_getparams settings = some out ∧
        (unflatten out).get KEY_SUPPORTED_PREVIEW_SIZES =
          some "1920x1080,1280x720,720x480") ∧
    ((unflatten settings).get KEY_PREVIEW_SIZE = some s →
      ∃ out, camera_fixup_setparams settings = some out ∧
        (unflatten out).get KEY_SUPPORTED_VIDEO_SIZES =
          some "1920x1080,1280x720,720x480") := by
  refine ⟨fun hsrc => ?_, fun hsrc => ?_⟩
  · obtain ⟨q, e, hw, hc, _, _, hl, _⟩ := getparams_result settings c s hmode hsrc
    refine ⟨_, e, ?_⟩
    rw [unflatten_flatten q hw hc]
    exact (get_eq_some_iff _ _ _).mpr ⟨hl, by decide⟩
  · obtain ⟨q, e, hw, hc, _, _, hl, _⟩ := setparams_result settings c s hmode hsrc
    refine ⟨_, e, ?_⟩
    rw [unflatten_flatten q hw hc]
    exact (get_eq_some_iff _ _ _).mpr ⟨hl, by decide⟩

/-- C5 (witness).  The two scenarios of the spec: the get path on
`"cam_mode=1;video-size=640x480"` and the set path on
`"cam_mode=1;preview-size=1280x720"`. -/
theorem size_list_witness :
    (∃ out, camera_fixup_getparams "cam_mode=1;video-size=640x480" = some out ∧
      (unflatten out).get KEY_SUPPORTED_PREVIEW_SIZES =
        some "1920x1080,1280x720,720x480") ∧
    (∃ out, camera_fixup_setparams "cam_mode=1;preview-size=1280x720" = some out ∧
      (unflatten out).get KEY_SUPPORTED_VIDEO_SIZES =
        some "1920x1080,1280x720,720x480") :=
  ⟨(size_list "cam_mode=1;video-size=640x480" "1" "640x480" (by decide)).1 (by decide),
    (size_list "cam_mode=1;preview-size=1280x720" "1" "1280x720" (by decide)).2 (by decide)⟩

/-- C6 (the code at the failing input).  On `"cam_mode=1"`, where the mode flag
is present and the source field is missing, `get` of the source field returns
a null pointer and each fixup uses it as a string (`String8(videoSize)` in get,
`set(KEY_VIDEO_SIZE, previewSize)` in set, `set(KEY_PREVIEW_SIZE, videoSize)`
in put): an undefined step, not the fallback `720x480`. -/
theorem missing_source_undefined :
    (unflatten "cam_mode=1").get "cam_mode" = some "1" ∧
    (unflatten "cam_mode=1").get KEY_VIDEO_SIZE = none ∧
    (unflatten "cam_mode=1").get KEY_PREVIEW_SIZE = none ∧
    camera_fixup_getparams "cam_mode=1" = none ∧
    camera_fixup_setparams "cam_mode=1" = none ∧
    camera_fixup_putparams "cam_mode=1" = none := by
  decide

/-- C7.  Codec round trip: for every parameter map `M` a program can hold
(its keys are then unique) whose values hold neither `;` nor `=`, parsing the
text `flatten` makes of `M` gives `M` again. -/
theorem unflatten_flatten_roundtrip (M : CameraParameters) (hM : M.Reachable)
    (hvalues : ∀ kv ∈ M.mMap, ';' ∉ kv.2.data ∧ '=' ∉ kv.2.data) :
    unflatten (flatten M) = M :=
  unflatten_flatten M hM.wellFormed (fun kv hkv => (hvalues kv hkv).1)

/-- C7 (witness).  The map parsed from `"b=2;a=1"` round-trips, and so does the
empty map. -/
theorem unflatten_flatten_roundtrip_witness :
    (unflatten "b=2;a=1").mMap = [("a", "1"), ("b", "2")] ∧
    flatten (unflatten "b=2;a=1") = "a=1;b=2" ∧
    unflatten (flatten (unflatten "b=2;a=1")) = unflatten "b=2;a=1" ∧
    unflatten (flatten CameraParameters.empty) = CameraParameters.empty :=
  ⟨by decide, by decide,
    unflatten_flatten_roundtrip (unflatten "b=2;a=1") (Reachable.unflatten "b=2;a=1")
      (by decide),
    unflatten_flatten_roundtrip CameraParameters.empty Reachable.empty
      (by simp [CameraParameters.empty])⟩

end CameraWrapper

/-! ## The claims about the forwarding operations and about opening -/

namespace CameraWrapper

/-- What the null checks themselves do, seen where the `LOGV` before them does
not evaluate its operands (`camera_dump` has no `LOGV`): with a null device no
operation calls the vendor device; `camera_msg_type_enabled` returns 0;
`camera_start_recording` returns something without a vendor call;
`set_preview_window`, `start_preview`, `preview_enabled`,
`store_meta_data_in_buffers`, `recording_enabled`, `auto_focus`,
`cancel_auto_focus`, `take_picture`, `cancel_picture`, `set_parameters`,
`send_command` and `dump` return `-EINVAL`; `get_parameters` returns a null
pointer; each void operation does nothing. -/
theorem null_handle (window notify_cb data_cb data_cb_timestamp get_memory user
    opaque_ptr : Nat) (msg_type enable cmd arg1 arg2 fd : Int) (params : String) :
    camera_set_preview_window false none window = some (-EINVAL, []) ∧
    camera_msg_type_enabled false none msg_type = some (0, []) ∧
    camera_start_preview false none = some (-EINVAL, []) ∧
    camera_preview_enabled false none = some (-EINVAL, []) ∧
    camera_store_meta_data_in_buffers false none enable = some (-EINVAL, []) ∧
    (camera_start_recording false none).map Prod.snd = some [] ∧
    camera_recording_enabled false none = some (-EINVAL, []) ∧
    camera_auto_focus false none = some (-EINVAL, []) ∧
    camera_cancel_auto_focus false none = some (-EINVAL, []) ∧
    camera_take_picture false none = some (-EINVAL, []) ∧
    camera_cancel_picture false none = some (-EINVAL, []) ∧
    camera_set_parameters false none params = some (-EINVAL, []) ∧
    camera_send_command false none cmd arg1 arg2 = some (-EINVAL, []) ∧
    camera_dump none fd = some (-EINVAL, []) ∧
    camera_get_parameters false none = some (none, []) ∧
    camera_set_callbacks false none notify_cb data_cb data_cb_timestamp get_memory user =
      some ((), []) ∧
    camera_enable_msg_type false none msg_type = some ((), []) ∧
    camera_disable_msg_type false none msg_type = some ((), []) ∧
    camera_stop_preview false none = some ((), []) ∧
    camera_stop_recording false none = some ((), []) ∧
    camera_release_recording_frame false none opaque_ptr = some ((), []) ∧
    camera_put_parameters false none params = some ((), []) ∧
    camera_release false none = some ((), []) := by
  refine ⟨rfl, rfl, rfl, rfl, rfl, rfl, rfl, rfl, rfl, rfl, rfl, rfl, rfl, rfl, rfl, rfl,
    rfl, rfl, rfl, rfl, rfl, rfl, rfl⟩

/-- C8 (the code at the failing input).  Under the `#define LOG_NDEBUG 0` of
line 24 `LOGV` evaluates its operands, so with a null device every forwarding
operation other than `camera_dump` reads `device->vendor` in its opening `LOGV`
before its null check is reached: an undefined step, not `-EINVAL` and not a
void operation that does nothing.  And the null check of
`camera_start_recording`, where it is reached, returns `EINVAL`, a positive
number, not `-EINVAL`. -/
theorem logv_reads_null_device (window notify_cb data_cb data_cb_timestamp get_memory user
    opaque_ptr : Nat) (msg_type enable cmd arg1 arg2 : Int) (params : String) :
    camera_set_preview_window true none window = none ∧
    camera_msg_type_enabled true none msg_type = none ∧
    camera_start_preview true none = none ∧
    camera_preview_enabled true none = none ∧
    camera_store_meta_data_in_buffers true none enable = none ∧
    camera_start_recording true none = none ∧
    camera_recording_enabled true none = none ∧
    camera_auto_focus true none = none ∧
    camera_cancel_auto_focus true none = none ∧
    camera_take_picture true none = none ∧
    camera_cancel_picture true none = none ∧
    camera_set_parameters true none params = none ∧
    camera_send_command true none cmd arg1 arg2 = none ∧
    camera_get_parameters true none = none ∧
    camera_set_callbacks true none notify_cb data_cb data_cb_timestamp get_memory user =
      none ∧
    camera_enable_msg_type true none msg_type = none ∧
    camera_disable_msg_type true none msg_type = none ∧
    camera_stop_preview true none = none ∧
    camera_stop_recording true none = none ∧
    camera_release_recording_frame true none opaque_ptr = none ∧
    camera_put_parameters true none params = none ∧
    camera_release true none = none ∧
    camera_start_recording false none = some (EINVAL, []) ∧
    EINVAL ≠ -EINVAL := by
  refine ⟨rfl, rfl, rfl, rfl, rfl, rfl, rfl, rfl, rfl, rfl, rfl, rfl, rfl, rfl, rfl, rfl,
    rfl, rfl, rfl, rfl, rfl, rfl, rfl, by decide⟩

/-- C9 (the code at the failing input).  For every opened device
`camera_cancel_picture` makes one vendor call, of the member `take_picture`, and
returns what that returns; the vendor's `cancel_picture` is not called. -/
theorem cancel_picture_calls_take_picture (logv : Bool) (vendor : camera_device) :
    camera_cancel_picture logv (some ⟨some vendor⟩) =
      some (vendor.ops Op.take_picture [], [⟨Op.take_picture, []⟩]) ∧
    Op.take_picture ≠ Op.cancel_picture := by
  constructor
  · cases logv <;> rfl
  · decide

/-- The operations next to `camera_cancel_picture` call the vendor member of
their own name, once, with their arguments, and return its result. -/
theorem forwarding_siblings (logv : Bool) (vendor : camera_device) (window : Nat)
    (msg_type enable cmd arg1 arg2 fd : Int) :
    camera_set_preview_window logv (some ⟨some vendor⟩) window =
      some (vendor.ops Op.set_preview_window [Arg.ptr window],
        [⟨Op.set_preview_window, [Arg.ptr window]⟩]) ∧
    camera_msg_type_enabled logv (some ⟨some vendor⟩) msg_type =
      some (vendor.ops Op.msg_type_enabled [Arg.int msg_type],
        [⟨Op.msg_type_enabled, [Arg.int msg_type]⟩]) ∧
    camera_start_preview logv (some ⟨some vendor⟩) =
      some (vendor.ops Op.start_preview [], [⟨Op.start_preview, []⟩]) ∧
    camera_preview_enabled logv (some ⟨some vendor⟩) =
      some (vendor.ops Op.preview_enabled [], [⟨Op.preview_enabled, []⟩]) ∧
    camera_store_meta_data_in_buffers logv (some ⟨some vendor⟩) enable =
      some (vendor.ops Op.store_meta_data_in_buffers [Arg.int enable],
        [⟨Op.store_meta_data_in_buffers, [Arg.int enable]⟩]) ∧
    camera_start_recording logv (some ⟨some vendor⟩) =
      some (vendor.ops Op.start_recording [], [⟨Op.start_recording, []⟩]) ∧
    camera_recording_enabled logv (some ⟨some vendor⟩) =
      some (vendor.ops Op.recording_enabled [], [⟨Op.recording_enabled, []⟩]) ∧
    camera_auto_focus logv (some ⟨some vendor⟩) =
      some (vendor.ops Op.auto_focus [], [⟨Op.auto_focus, []⟩]) ∧
    camera_cancel_auto_focus logv (some ⟨some vendor⟩) =
      some (vendor.ops Op.cancel_auto_focus [], [⟨Op.cancel_auto_focus, []⟩]) ∧
    camera_take_picture logv (some ⟨some vendor⟩) =
      some (vendor.ops Op.take_picture [], [⟨Op.take_picture, []⟩]) ∧
    camera_send_command logv (some ⟨some vendor⟩) cmd arg1 arg2 =
      some (vendor.ops Op.send_command [Arg.int cmd, Arg.int arg1, Arg.int arg2],
        [⟨Op.send_command, [Arg.int cmd, Arg.int arg1, Arg.int arg2]⟩]) ∧
    camera_dump (some ⟨some vendor⟩) fd =
      some (vendor.ops Op.dump [Arg.int fd], [⟨Op.dump, [Arg.int fd]⟩]) ∧
    camera_stop_preview logv (some ⟨some vendor⟩) = some ((), [⟨Op.stop_preview, []⟩]) ∧
    camera_stop_recording logv (some ⟨some vendor⟩) =
      some ((), [⟨Op.stop_recording, []⟩]) ∧
    camera_release logv (some ⟨some vendor⟩) = some ((), [⟨Op.release, []⟩]) ∧
    camera_enable_msg_type logv (some ⟨some vendor⟩) msg_type =
      some ((), [⟨Op.enable_msg_type, [Arg.int msg_type]⟩]) ∧
    camera_disable_msg_type logv (some ⟨some vendor⟩) msg_type =
      some ((), [⟨Op.disable_msg_type, [Arg.int msg_type]⟩]) := by
  cases logv <;>
    exact ⟨rfl, rfl, rfl, rfl, rfl, rfl, rfl, rfl, rfl, rfl, rfl, rfl, rfl, rfl, rfl, rfl, rfl⟩

/-- For a camera id above the vendor's count `camera_device_open` returns
`-EINVAL`, stores `NULL` and does not call the vendor's `open`. -/
theorem open_id_above_count (env : OpenEnv) (vendorModule : camera_module_t) (name : String)
    (hmodule : check_vendor_module env = (0, some vendorModule))
    (hid : vendorModule.get_number_of_cameras < env.atoi name) :
    ∃ r, camera_device_open env (some name) = some r ∧ r.rv = -EINVAL ∧
      r.vendor_opens = [] ∧ r.device.isSome = true ∧ r.device.join.isNone = true := by
  refine ⟨⟨-EINVAL, some none, []⟩, ?_, rfl, rfl, rfl, rfl⟩
  simp [camera_device_open, hmodule, hid]

/-- C10 (the code at the failing input).  When the camera id equals the
vendor's count `n`, an id that names none of the cameras `0 .. n-1`, the test
`cameraid > num_cameras` lets it pass: the vendor module's `open` is called with
the name, and when that and the allocations succeed `camera_device_open`
returns 0 with a device. -/
theorem open_id_equal_count (env : OpenEnv) (vendorModule : camera_module_t) (name : String)
    (hmodule : check_vendor_module env = (0, some vendorModule))
    (hid : env.atoi name = vendorModule.get_number_of_cameras)
    (hmalloc : env.malloc_camera_device = true) :
    ∃ r, camera_device_open env (some name) = some r ∧ r.vendor_opens = [name] ∧
      ((vendorModule.methods_open name).1 = 0 → env.malloc_camera_ops = true →
        r.rv = 0 ∧ r.device.join.isSome = true) := by
  by_cases hrv : (vendorModule.methods_open name).1 = 0
  · by_cases hops : env.malloc_camera_ops = true
    · refine ⟨⟨0, some (some ⟨(vendorModule.methods_open name).2⟩), [name]⟩, ?_, rfl,
        fun _ _ => ⟨rfl, rfl⟩⟩
      simp [camera_device_open, hmodule, hid, hmalloc, hrv, hops]
    · refine ⟨⟨-ENOMEM, some none, [name]⟩, ?_, rfl, fun _ h => absurd h hops⟩
      simp [camera_device_open, hmodule, hid, hmalloc, hrv, hops]
  · refine ⟨⟨(vendorModule.methods_open name).1, some none, [name]⟩, ?_, rfl,
      fun h _ => absurd h hrv⟩
    simp [camera_device_open, hmodule, hid, hmalloc, hrv]

/-- C10 (witness).  A vendor module that reports 2 cameras and whose `open`
succeeds, and the name `"2"`: the vendor's `open` is called and
`camera_device_open` returns 0 with a device. -/
theorem open_id_equal_count_witness :
    ∃ r, camera_device_open
        ⟨some ⟨2, fun _ => (0, some ⟨fun _ _ => 0, none⟩)⟩, (0, none), fun _ => 2, true, true⟩
        (some "2") = some r ∧
      r.vendor_opens = ["2"] ∧ r.rv = 0 ∧ r.device.join.isSome = true := by
  obtain ⟨r, h1, h2, h3⟩ := open_id_equal_count
    ⟨some ⟨2, fun _ => (0, some ⟨fun _ _ => 0, none⟩)⟩, (0, none), fun _ => 2, true, true⟩
    ⟨2, fun _ => (0, some ⟨fun _ _ => 0, none⟩)⟩ "2" rfl rfl rfl
  exact ⟨r, h1, h2, h3 rfl rfl⟩

end CameraWrapper

/-! ## The claims about the returned buffer and about applying the get fixup twice -/

namespace android

namespace KeyedVector

theorem removeItem_of_find_none (key : String) (m : List (String × String))
    (h : find key m = none) : removeItem key m = m := by
  induction m with
  | nil => rfl
  | cons x rest ih =>
    obtain ⟨k, v⟩ := x
    unfold find at h
    by_cases hk : k = key
    · simp [hk] at h
    · simp only [hk, if_false] at h
      simp only [removeItem, hk, if_false, ih h]

theorem add_eq_cons (key value : String) (m : List (String × String))
    (h : ∀ kv ∈ m, strLt key.data kv.1.data = true) :
    add key value m = (key, value) :: m := by
  cases m with
  | nil => rfl
  | cons x rest =>
    obtain ⟨k, v⟩ := x
    have hk : strLt key.data k.data = true := h (k, v) (List.mem_cons_self _ _)
    simp only [add, hk, if_true]

theorem replaceValueFor_of_find (key value : String) (m : List (String × String))
    (hs : Sorted m) (h : find key m = some value) : replaceValueFor key value m = m := by
  unfold replaceValueFor
  induction m with
  | nil => simp [find] at h
  | cons x rest ih =>
    obtain ⟨k, v⟩ := x
    have hs' := List.pairwise_cons.mp hs
    unfold find at h
    by_cases hk : k = key
    · subst hk
      simp only [if_true, Option.some.injEq] at h
      subst h
      simp only [removeItem, if_true]
      exact add_eq_cons k v rest (fun kv hkv => hs'.1 kv hkv)
    · simp only [hk, if_false] at h
      have hlt : strLt k.data key.data = true := hs'.1 (key, value) (find_mem h)
      have h1 : strLt key.data k.data = false := strLt_asymm _ _ hlt
      have h2 : ¬ key = k := fun e => hk e.symm
      simp only [removeItem, hk, if_false, add, h1, h2, Bool.false_eq_true, ih hs'.2 h]

end KeyedVector

end android

namespace CameraWrapper

open android android.CameraParameters

theorem size_choice_fixed (s : String) :
    (if (if s = "1920x1080" then "1920x1080" else if s = "1280x720" then "1280x720"
          else "720x480" : String) = "1920x1080" then "1920x1080"
      else if (if s = "1920x1080" then "1920x1080" else if s = "1280x720" then "1280x720"
          else "720x480" : String) = "1280x720" then "1280x720"
      else "720x480" : String) =
    (if s = "1920x1080" then "1920x1080" else if s = "1280x720" then "1280x720"
      else "720x480") := by
  split_ifs <;> first | rfl | (exfalso; simp_all)

end CameraWrapper

namespace CameraWrapper

open android android.CameraParameters

/-- Applying the get fixup to its own result, mode flag set: for an input in
which `get("cam_mode")` and `get` of the video size both return a value, the
fixup returns a text, and applied to that text it returns the same text. -/
theorem getparams_twice_mode (settings c s : String)
    (hmode : (unflatten settings).get "cam_mode" = some c)
    (hsrc : (unflatten settings).get KEY_VIDEO_SIZE = some s) :
    ∃ out, camera_fixup_getparams settings = some out ∧
      camera_fixup_getparams out = some out := by
  obtain ⟨q, e, hw, hc, hp, hv, hl, hr, hf⟩ := getparams_result settings c s hmode hsrc
  obtain ⟨_, _, hz⟩ := size_choice_clean s
  refine ⟨_, e, ?_⟩
  have hq : unflatten (flatten q) = q := unflatten_flatten q hw hc
  have hmode' : (unflatten (flatten q)).get "cam_mode" = some c := by
    rw [hq, ← hmode]
    exact get_congr _ _ _ (hf _ (by decide) (by decide) (by decide) (by decide))
  have hsrc' : (unflatten (flatten q)).get KEY_VIDEO_SIZE =
      some (if s = "1920x1080" then "1920x1080" else if s = "1280x720" then "1280x720"
        else "720x480") := by
    rw [hq]
    exact (get_eq_some_iff _ _ _).mpr ⟨hv, hz⟩
  rw [getparams_mode (flatten q) c _ hmode' hsrc', hq, size_choice_fixed s]
  have h1 := KeyedVector.removeItem_of_find_none KEY_SUPPORTED_VIDEO_SIZES q.mMap hr
  have h2 := KeyedVector.replaceValueFor_of_find KEY_SUPPORTED_PREVIEW_SIZES _ q.mMap hw.1 hl
  have h3 := KeyedVector.replaceValueFor_of_find KEY_PREVIEW_SIZE _ q.mMap hw.1 hp
  have h4 := KeyedVector.replaceValueFor_of_find KEY_VIDEO_SIZE _ q.mMap hw.1 hv
  rw [h1, h2, h3, h4]

/-- Applying the get fixup to its own result, mode flag not set: for an input
in which `get("cam_mode")` is null the fixup returns a text, and applied to
that text it returns the same text. -/
theorem getparams_twice_nomode (settings : String)
    (hmode : (unflatten settings).get "cam_mode" = none) :
    ∃ out, camera_fixup_getparams settings = some out ∧
      camera_fixup_getparams out = some out := by
  have hw0 := unflatten_wellFormed settings
  have hc0 := unflatten_valuesClean settings
  have hw1 := remove_wellFormed _ KEY_SUPPORTED_VIDEO_SIZES hw0
  have hc1 := remove_valuesClean _ KEY_SUPPORTED_VIDEO_SIZES hc0
  have hq := unflatten_flatten _ hw1 hc1
  refine ⟨_, getparams_nomode settings hmode, ?_⟩
  have hmode' : (unflatten (flatten ((unflatten settings).remove
      KEY_SUPPORTED_VIDEO_SIZES))).get "cam_mode" = none := by
    rw [hq, get_remove_ne _ (by decide)]
    exact hmode
  rw [getparams_nomode _ hmode', hq]
  have h1 : ((unflatten settings).remove KEY_SUPPORTED_VIDEO_SIZES).remove
      KEY_SUPPORTED_VIDEO_SIZES = (unflatten settings).remove KEY_SUPPORTED_VIDEO_SIZES := by
    unfold remove
    simp only
    rw [KeyedVector.removeItem_of_find_none _ _
      (KeyedVector.find_removeItem_self _ _ hw0.1)]
  rw [h1]

/-- The get fixup is idempotent wherever it returns: for every input in which
`get` of the video size returns a value whenever `get("cam_mode")` does (each
key stored with a non-empty value), the fixup returns a text and, applied to
that text, returns the same text. -/
theorem getparams_twice (settings : String)
    (h : (unflatten settings).get "cam_mode" ≠ none →
      (unflatten settings).get KEY_VIDEO_SIZE ≠ none) :
    ∃ out, camera_fixup_getparams settings = some out ∧
      camera_fixup_getparams out = some out := by
  cases hmode : (unflatten settings).get "cam_mode" with
  | none => exact getparams_twice_nomode settings hmode
  | some c =>
    cases hsrc : (unflatten settings).get KEY_VIDEO_SIZE with
    | none => exact absurd hsrc (h (by simp [hmode]))
    | some s => exact getparams_twice_mode settings c s hmode hsrc

set_option maxRecDepth 100000

/-- C11 (the code at the failing input).  Whatever text `strParams` a fixup has
flattened, it is copied with `strcpy` into a buffer allocated with
`new char[strParams.bytes()]`: the bytes written are one more than the bytes
allocated, the terminating NUL lying behind the end of the buffer.  So the set
fixup on `"a=1"`, which returns `"a=1"`, allocates 3 bytes and writes 4, and
the get fixup on `"cam_mode=1;video-size=640x480"` allocates 97 and writes
98. -/
theorem settings_buffer_short (strParams : String) :
    (copy_to_settings strParams).written = (copy_to_settings strParams).allocated + 1 ∧
    (copy_to_settings strParams).allocated < (copy_to_settings strParams).written ∧
    camera_fixup_setparams "a=1" = some "a=1" ∧
    copy_to_settings "a=1" = ⟨3, 4⟩ ∧
    (camera_fixup_putparams "a=1").map copy_to_settings = some ⟨3, 4⟩ ∧
    (camera_fixup_getparams "cam_mode=1;video-size=640x480").map copy_to_settings =
      some ⟨97, 98⟩ := by
  have e : (copy_to_settings strParams).written =
      (copy_to_settings strParams).allocated + 1 := rfl
  exact ⟨e, by omega, by decide, by decide, by decide, by decide⟩

/-- C12 (the code at the failing input).  In `"cam_mode=1;video-size="` the key
`cam_mode` is present and so is the key of the video size, with an empty value.
For that value `get` returns a null pointer, and the get fixup stops at the
`String8` built from it: there is no result to apply the fixup to again. -/
theorem getparams_empty_video_size :
    KeyedVector.find "cam_mode" (unflatten "cam_mode=1;video-size=").mMap = some "1" ∧
    KeyedVector.find KEY_VIDEO_SIZE (unflatten "cam_mode=1;video-size=").mMap = some "" ∧
    (unflatten "cam_mode=1;video-size=").get KEY_VIDEO_SIZE = none ∧
    camera_fixup_getparams "cam_mode=1;video-size=" = none ∧
    ¬ ∃ out, camera_fixup_getparams "cam_mode=1;video-size=" = some out ∧
      camera_fixup_getparams out = some out := by
  refine ⟨by decide, by decide, by decide, by decide, ?_⟩
  rintro ⟨out, h, _⟩
  have e : camera_fixup_getparams "cam_mode=1;video-size=" = none := by decide
  rw [e] at h
  cases h

end CameraWrapper
